import Mathlib

/-!
Verification of the Resample-Lab recommendation engine
(src/logic/recommendationEngine.ts) against its natural-language
specification.

The TypeScript source is shallowly embedded below.  JavaScript `number`
arithmetic is modelled by exact field arithmetic: the fold analyzer and the
fold color ramp only use field operations, comparisons, `min`/`max` and
`floor`, so they are embedded generically over a `LinearOrderedField` with a
`FloorRing` instance (instantiated at `ℚ` for executable checks and at `ℝ`
inside `analyzeDataset`); the weight engine uses `Math.exp`, `Math.log10` and
`Math.pow`, so it is embedded over `ℝ` with `Real.exp`, `Real.logb 10` and
real exponentiation.  `Number.prototype.toFixed(2)` (round to the nearest
hundredth, exact ties toward the larger value, per ECMA-262) is modelled by
`toFixed2` below.

Narrative output strings that interpolate live numbers (`rationale`,
`validationRisk`, ...) carry no claim content and are omitted from the
embedded record types; output strings that are fixed constants (status
labels, sparsity warnings, palette colors) are embedded verbatim, and the
two fold-target / sampling-mix messages are embedded as small inductive
message types whose constructors are in bijection with the string templates
of the source (documented at their declarations).
-/

namespace ResampleLab

/-- The four strategy tags of `StrategyType` in src/types.ts. -/
inductive StrategyType : Type
  | oversample
  | undersample
  | hybrid
  | baseline
deriving DecidableEq, Repr

/-- An RGB triple (src/types.ts `RGB`); the component type is a parameter
because the source stores both integer anchor colors and fractional blended
colors in this shape. -/
structure RGB (α : Type) : Type where
  r : α
  g : α
  b : α
deriving DecidableEq, Repr

/-- `COLORS` table from src/logic/recommendationEngine.ts. -/
def COLORS : StrategyType → String
  | .oversample => "#ef4444"
  | .undersample => "#3b82f6"
  | .hybrid => "#a855f7"
  | .baseline => "#10b981"

/-- Value of a single lowercase hexadecimal digit, as `parseInt(-, 16)`
decodes it (only digits and lowercase letters occur in the palette). -/
def hexDigitVal (c : Char) : ℕ :=
  if c = '0' then 0 else if c = '1' then 1 else if c = '2' then 2
  else if c = '3' then 3 else if c = '4' then 4 else if c = '5' then 5
  else if c = '6' then 6 else if c = '7' then 7 else if c = '8' then 8
  else if c = '9' then 9 else if c = 'a' then 10 else if c = 'b' then 11
  else if c = 'c' then 12 else if c = 'd' then 13 else if c = 'e' then 14
  else if c = 'f' then 15 else 0

/-- `parseInt(hex.slice(i, i+2), 16)` for the two characters at index `i`. -/
def hexPairAt (s : String) (i : ℕ) : ℕ :=
  match s.data.drop i with
  | c1 :: c2 :: _ => 16 * hexDigitVal c1 + hexDigitVal c2
  | _ => 0

/-- `hexToRgb` from the source: decode `#rrggbb`. -/
def hexToRgb (hex : String) : RGB ℕ :=
  ⟨hexPairAt hex 1, hexPairAt hex 3, hexPairAt hex 5⟩

/-- `STRATEGY_RGB`: precomputed anchor colors. -/
def STRATEGY_RGB (s : StrategyType) : RGB ℕ :=
  hexToRgb (COLORS s)

/-- The five fold-status categories (keys of `FOLD_STATUS_CONFIG`). -/
inductive FoldStatusKey : Type
  | LOO
  | IMPOSSIBLE
  | LOPO
  | VARIANCE
  | STABLE
deriving DecidableEq, Repr

/-- Display configuration carried by each fold status
(`FOLD_STATUS_CONFIG` entries). -/
structure FoldStatusConfig : Type where
  color : String
  bg : String
  label : String
deriving DecidableEq, Repr

/-- `FOLD_STATUS_CONFIG` from the source, embedded verbatim. -/
def FOLD_STATUS_CONFIG : FoldStatusKey → FoldStatusConfig
  | .LOO => ⟨"text-pink-400", "bg-pink-500/20 border-pink-500/30",
      "Leave-One-Out Cross-Validation"⟩
  | .IMPOSSIBLE => ⟨"text-zinc-500", "bg-zinc-800 border-zinc-700",
      "Statistically Invalid"⟩
  | .LOPO => ⟨"text-purple-400", "bg-purple-500/20 border-purple-500/30",
      "Leave-One-Positive-Out (Stratified)"⟩
  | .VARIANCE => ⟨"text-amber-400", "bg-amber-500/20 border-amber-500/30",
      "High Variance Region"⟩
  | .STABLE => ⟨"text-emerald-400", "bg-emerald-500/20 border-emerald-500/30",
      "Stable Evaluation"⟩

/-- Does the pattern (second list) occur at the head of the first list?
Auxiliary for the JavaScript `String.prototype.includes` check used by
`analyzeDataset` on a fold-status label. -/
def leadMatch : List Char → List Char → Bool
  | _, [] => true
  | [], _ :: _ => false
  | c :: cs, d :: ds => c = d && leadMatch cs ds

/-- Does the pattern occur (contiguously) anywhere in the list? -/
def containsSub (hay pat : List Char) : Bool :=
  (List.range (hay.length + 1)).any fun i => leadMatch (hay.drop i) pat

/-- JavaScript `hay.includes(pat)` for strings. -/
def strIncludes (hay pat : String) : Bool :=
  containsSub hay.data pat.data

section FoldAnalyzer

variable {α : Type} [LinearOrderedField α] [FloorRing α]

/-- `Number((x).toFixed(2))`: the nearest multiple of 1/100, exact ties
toward the larger value (ECMA-262 `toFixed` picks the larger candidate
integer on a tie), read back as a number. -/
def toFixed2 (x : α) : α :=
  ((⌊x * 100 + 1/2⌋ : ℤ) : α) / 100

/-- `effectiveFolds = Math.min(folds, total)` in `analyzeFolds`. -/
def effectiveFolds (folds total : α) : α :=
  min folds total

/-- The status-classification chain of `analyzeFolds` (the source computes
`statusKey` by this exact first-match-wins sequence of branches). -/
def foldStatusKey (minority folds total : α) : FoldStatusKey :=
  let eff := effectiveFolds folds total
  let minPerFold := minority / eff
  let isLOOCV := eff ≥ total ∨ eff ≥ 5000
  let isStratImpossible := eff > minority
  if isLOOCV then .LOO
  else if isStratImpossible then .IMPOSSIBLE
  else if minPerFold < 1.5 then .LOPO
  else if minPerFold < 15 then .VARIANCE
  else .STABLE

/-- Result record of `analyzeFolds` (src/types.ts `FoldAnalysis`).  The two
narrative strings `validationRisk` / `trainingImpact` interpolate live
numbers and are omitted (no claim concerns them). -/
structure FoldAnalysis (α : Type) : Type where
  minPerFold : α
  minInTraining : ℤ
  label : String
  statusColor : String
  statusBg : String
  viabilityScore : α

/-- `analyzeFolds` from the source.  `minInTraining` uses `Math.floor`;
the displayed `minPerFold` is `toFixed(2)` below 1 and `Math.floor` above;
`viabilityScore` is overridden to 0 when stratification is impossible and
the input is not simultaneously a LOOCV case. -/
def analyzeFolds (minority folds total : α) : FoldAnalysis α :=
  let eff := effectiveFolds folds total
  let minPerFold := minority / eff
  let minInTraining : ℤ := ⌊minority * ((eff - 1) / eff)⌋
  let viabilityScore := min 100 (minPerFold / 30 * 100)
  let isLOOCV := eff ≥ total ∨ eff ≥ 5000
  let isStratImpossible := eff > minority
  let config := FOLD_STATUS_CONFIG (foldStatusKey minority folds total)
  let displayMinPerFold := if minPerFold < 1 then toFixed2 minPerFold
    else ((⌊minPerFold⌋ : ℤ) : α)
  { minPerFold := displayMinPerFold
    minInTraining := minInTraining
    label := config.label
    statusColor := config.color
    statusBg := config.bg
    viabilityScore := if isStratImpossible ∧ ¬isLOOCV then 0 else viabilityScore }

/-- `Math.max(1, folds)`, the divisor of `getFoldStabilityRGB`. -/
def foldColorDivisor (folds : α) : α :=
  max 1 folds

/-- `getFoldStabilityRGB` from the source (the fold-stability color ramp). -/
def getFoldStabilityRGB (minority folds : α) : RGB α :=
  let minPerFold := minority / foldColorDivisor folds
  if minPerFold < 1 then ⟨20, 10, 10⟩
  else if minPerFold < 5 then ⟨220, 40, 40⟩
  else if minPerFold < 30 then
    let t := (minPerFold - 5) / 25
    ⟨239 + (16 - 239) * t, 68 + (185 - 68) * t, 68 + (129 - 68) * t⟩
  else ⟨16, 185, 129⟩

end FoldAnalyzer

/-! ### Weight engine (real-valued) -/

/-- `sigmoid` from the source: a base-10 logistic over
`x = log10(max(val, 1))` and `t = log10(max(threshold, 1))`, giving
`1 / (1 + exp(-k * (x - t)))`. -/
noncomputable def sigmoid (val threshold k : ℝ) : ℝ :=
  1 / (1 + Real.exp (-(k * (Real.logb 10 (max val 1) - Real.logb 10 (max threshold 1)))))

/-- `getMinorityThreshold` from the source.  The numeric constants 20, 100
and 200 are `THRESHOLDS.DIM_LOW`, `THRESHOLDS.DIM_HIGH` and
`THRESHOLDS.MIN_SAMPLES_BASE`. -/
noncomputable def getMinorityThreshold (p : ℝ) : ℝ :=
  if p ≤ 20 then 200
  else if p ≤ 100 then 200 + (p - 20) * 2.5
  else 400 + 200 * Real.logb 10 (p / 100)

/-- `getDistanceStability` from the source. -/
noncomputable def getDistanceStability (sparsity homogeneity : ℝ) : ℝ :=
  if sparsity < 0.3 then 1
  else
    let baseInstability := sparsity ^ (2.5 : ℝ)
    let distributionImpact := 0.2 + 0.8 * homogeneity
    let risk := baseInstability * distributionImpact
    max 0 (1 - risk)

/-- The pre-penalty weight vector together with the pre-penalty arg-max
tag.  In the source `dominantOriginal` has type `StrategyType | null`, but
every control path assigns one of the four tags, so it is embedded as
`StrategyType`. -/
structure RawWeights : Type where
  wOversample : ℝ
  wUndersample : ℝ
  wHybrid : ℝ
  wBaseline : ℝ
  dominantOriginal : StrategyType

/-- `isLowDim` in `calculateWeights` (step 1, dimensionality factor). -/
noncomputable def isLowDim (p : ℝ) : ℝ :=
  1 - sigmoid p 20 12

/-- `isHighDim` in `calculateWeights`. -/
noncomputable def isHighDim (p : ℝ) : ℝ :=
  sigmoid p 100 12

/-- `isMedDim = 1 - isLowDim - isHighDim` in `calculateWeights`. -/
noncomputable def isMedDim (p : ℝ) : ℝ :=
  1 - isLowDim p - isHighDim p

/-- `isTinyMin` in `calculateWeights` (step 2, count factor); the threshold
is `getMinorityThreshold p`. -/
noncomputable def isTinyMin (p nMin : ℝ) : ℝ :=
  1 - sigmoid nMin (getMinorityThreshold p) 10

/-- `efficiencyPressure = max(isHighRatio, isLargeTotal)` in
`calculateWeights`, with `ratio = nTotal / max(1, nMin)`.  The numeric
constants 60 and 150000 are the two efficiency thresholds of `THRESHOLDS`
(imbalance ratio 1:60 and 150k rows). -/
noncomputable def efficiencyPressure (nMin nTotal : ℝ) : ℝ :=
  max (sigmoid (nTotal / max 1 nMin) 60 8) (sigmoid nTotal 150000 8)

/-- The pre-penalty part of `calculateWeights` (steps 1-3, the `totalW`
fallback and the `dominantOriginal` arg-max).  It is factored out because it
depends only on `(p, nMin, nTotal)`, never on the sparsity inputs; the
source computes exactly these values before its step 4.  The source
accumulates each weight by `+=` across the three regime blocks (low, med,
high, in that order, each guarded by its regime mass exceeding 0.01);
here each weight is the sum of its guarded contributions in the same
order. -/
noncomputable def rawWeights (p nMin nTotal : ℝ) : RawWeights :=
  -- Low Dim Regime
  let wOversample :=
    if isLowDim p > 0.01 then isLowDim p * isTinyMin p nMin else 0
  -- Low, Med and High Dim Regime contributions, in source order
  let wUndersample :=
    (if isLowDim p > 0.01 then
      isLowDim p * (1 - isTinyMin p nMin) * efficiencyPressure nMin nTotal else 0) +
    (if isMedDim p > 0.01 then
      isMedDim p * (1 - isTinyMin p nMin) * efficiencyPressure nMin nTotal else 0) +
    (if isHighDim p > 0.01 then isHighDim p * (1 - isTinyMin p nMin) else 0)
  let wHybrid :=
    (if isMedDim p > 0.01 then isMedDim p * isTinyMin p nMin else 0) +
    (if isHighDim p > 0.01 then isHighDim p * isTinyMin p nMin else 0)
  let wBaseline0 :=
    (if isLowDim p > 0.01 then
      isLowDim p * (1 - isTinyMin p nMin) * (1 - efficiencyPressure nMin nTotal) else 0) +
    (if isMedDim p > 0.01 then
      isMedDim p * (1 - isTinyMin p nMin) * (1 - efficiencyPressure nMin nTotal) else 0)
  -- Fallback to Baseline if no strategy strongly activated
  let totalW := wOversample + wUndersample + wHybrid + wBaseline0
  let wBaseline := if totalW < 0.001 then 1 else wBaseline0
  -- Determine dominant strategy BEFORE sparsity penalties
  let maxOrig := max (max wOversample wUndersample) (max wHybrid wBaseline)
  let dominantOriginal : StrategyType :=
    if maxOrig = wOversample then .oversample
    else if maxOrig = wHybrid then .hybrid
    else if maxOrig = wUndersample then .undersample
    else .baseline
  ⟨wOversample, wUndersample, wHybrid, wBaseline, dominantOriginal⟩

/-- Result record of `calculateWeights` (`WeightResult` in the source). -/
structure WeightResult : Type where
  wOversample : ℝ
  wUndersample : ℝ
  wHybrid : ℝ
  wBaseline : ℝ
  stability : ℝ
  dominantOriginal : StrategyType

/-- `calculateWeights` from the source: the pre-penalty weights of
`rawWeights` followed by step 4, the sparsity-penalty block.  Note that the
source's penalty block mutates `wOversample` in place and *then* adds
`wOversample * penalty` (the already-reduced value) into `wBaseline`, and
likewise for `wHybrid`; the embedding reproduces that update order. -/
noncomputable def calculateWeights (p nMin nTotal sparsity homogeneity : ℝ) :
    WeightResult :=
  let raw := rawWeights p nMin nTotal
  let stability := getDistanceStability sparsity homogeneity
  let penalty := 1 - stability
  if penalty > 0 then
    let wOversample := raw.wOversample - raw.wOversample * penalty
    let wBaseline := raw.wBaseline + wOversample * penalty
    let wHybrid := raw.wHybrid - raw.wHybrid * penalty
    let wBaseline := wBaseline + wHybrid * penalty
    ⟨wOversample, raw.wUndersample, wHybrid, wBaseline, stability,
      raw.dominantOriginal⟩
  else
    ⟨raw.wOversample, raw.wUndersample, raw.wHybrid, raw.wBaseline, stability,
      raw.dominantOriginal⟩

/-- `getSmoothStrategyRGB` from the source (the spec's `blendColor`):
normalize the four post-penalty weights by their sum (`|| 1` guards an
exactly-zero sum) and accumulate, per scalar channel, the anchor colors
weighted by the normalized weights — the source's `accumulate` helper
mutates the scalars `r`, `g`, `b` by `c.r * normW` for each weight that is
strictly positive, in the order oversample, undersample, hybrid,
baseline. -/
noncomputable def blendWeights (w : WeightResult) : RGB ℝ :=
  let totalWeight :=
    if w.wOversample + w.wUndersample + w.wHybrid + w.wBaseline = 0 then 1
    else w.wOversample + w.wUndersample + w.wHybrid + w.wBaseline
  let r :=
    (if w.wOversample > 0 then
      ((STRATEGY_RGB .oversample).r : ℝ) * (w.wOversample / totalWeight) else 0) +
    (if w.wUndersample > 0 then
      ((STRATEGY_RGB .undersample).r : ℝ) * (w.wUndersample / totalWeight) else 0) +
    (if w.wHybrid > 0 then
      ((STRATEGY_RGB .hybrid).r : ℝ) * (w.wHybrid / totalWeight) else 0) +
    (if w.wBaseline > 0 then
      ((STRATEGY_RGB .baseline).r : ℝ) * (w.wBaseline / totalWeight) else 0)
  let g :=
    (if w.wOversample > 0 then
      ((STRATEGY_RGB .oversample).g : ℝ) * (w.wOversample / totalWeight) else 0) +
    (if w.wUndersample > 0 then
      ((STRATEGY_RGB .undersample).g : ℝ) * (w.wUndersample / totalWeight) else 0) +
    (if w.wHybrid > 0 then
      ((STRATEGY_RGB .hybrid).g : ℝ) * (w.wHybrid / totalWeight) else 0) +
    (if w.wBaseline > 0 then
      ((STRATEGY_RGB .baseline).g : ℝ) * (w.wBaseline / totalWeight) else 0)
  let b :=
    (if w.wOversample > 0 then
      ((STRATEGY_RGB .oversample).b : ℝ) * (w.wOversample / totalWeight) else 0) +
    (if w.wUndersample > 0 then
      ((STRATEGY_RGB .undersample).b : ℝ) * (w.wUndersample / totalWeight) else 0) +
    (if w.wHybrid > 0 then
      ((STRATEGY_RGB .hybrid).b : ℝ) * (w.wHybrid / totalWeight) else 0) +
    (if w.wBaseline > 0 then
      ((STRATEGY_RGB .baseline).b : ℝ) * (w.wBaseline / totalWeight) else 0)
  ⟨r, g, b⟩

noncomputable def getSmoothStrategyRGB (p nMin nTotal sparsity homogeneity : ℝ) :
    RGB ℝ :=
  blendWeights (calculateWeights p nMin nTotal sparsity homogeneity)

/-! ### Recommendation composer -/

/-- `DatasetParams` from src/types.ts. -/
structure DatasetParams : Type where
  features : ℝ
  minority : ℝ
  total : ℝ
  folds : ℝ
  sparsity : ℝ
  sparsityHomogeneity : ℝ

/-- The winner selection at the top of `analyzeDataset`: start from
`BASELINE` / `wBaseline` and let `wOversample`, then `wHybrid`, then
`wUndersample` take over on a strict `>` comparison, in that source order
(so ties keep the earlier holder). -/
noncomputable def pickStrategy (w : WeightResult) : StrategyType :=
  let s0 : StrategyType := .baseline
  let m0 := w.wBaseline
  let s1 := if w.wOversample > m0 then StrategyType.oversample else s0
  let m1 := if w.wOversample > m0 then w.wOversample else m0
  let s2 := if w.wHybrid > m1 then StrategyType.hybrid else s1
  let m2 := if w.wHybrid > m1 then w.wHybrid else m1
  if w.wUndersample > m2 then StrategyType.undersample else s2

/-- The `wasForcedToBaseline` flag of `analyzeDataset`: the post-penalty
winner is baseline while the pre-penalty dominant was oversample or
hybrid. -/
noncomputable def wasForcedToBaseline (w : WeightResult) : Prop :=
  pickStrategy w = .baseline ∧
    (w.dominantOriginal = .oversample ∨ w.dominantOriginal = .hybrid)

noncomputable instance (w : WeightResult) : Decidable (wasForcedToBaseline w) := by
  unfold wasForcedToBaseline; infer_instance

/-- The four constant sparsity-warning strings the composer can emit,
verbatim from the source. -/
def warnForcedStructured : String :=
  "Recommendation: Utilize SMOTE-NC or feature-specific handling."

def warnForcedUniform : String :=
  "Critical Sparsity: Euclidean distance metrics are unstable."

def warnStructured : String :=
  "Structured Sparsity: Use Nominal/Continuous variants (e.g., SMOTE-NC)."

def warnCaution : String :=
  "Caution: High sparsity reduces distance metric reliability."

/-- The five `foldTarget` messages of `analyzeDataset`, one constructor per
string template of the source, in source order:
`"Leave-One-Out (LOOCV)"`, `"INVALID CONFIGURATION"`,
`"Target >15 samples per fold (Current: ...)"` (carrying the displayed
`minPerFold`), `"Target >30 samples per fold (Current: ...)"` (likewise),
and `"Sufficient Minority Samples."`. -/
inductive FoldTargetMsg : Type
  | loocv
  | invalid
  | target15 (current : ℝ)
  | target30 (current : ℝ)
  | sufficient

/-- The five `samplingMix` messages of `analyzeDataset`, one constructor per
string template, in source order: `"N/A (All data utilized)."`,
`"Cannot stratify ... folds with ... samples."` (carrying the interpolated
folds and minority), `"Primary: Oversampling. Maintain synthetic ratio ≤
3:1."`, `"Baseline: None. If unstable, introduce moderate oversampling."`,
and `"Undersampling or Ensemble Methods."`. -/
inductive SamplingMixMsg : Type
  | allData
  | cannotStratify (folds minority : ℝ)
  | primaryOversampling
  | baselineNone
  | undersamplingEnsemble

/-- The fields of the source's `Recommendation` record that carry decision
content.  `title`, `description` and `rationale` are narrative strings
interpolating live numbers and are omitted; `foldTarget` and `samplingMix`
are represented by the message types above; `sparsityWarning` is `none`
exactly when the source leaves the optional field unset. -/
structure Recommendation : Type where
  strategy : StrategyType
  foldTarget : FoldTargetMsg
  samplingMix : SamplingMixMsg
  color : String
  foldAnalysis : FoldAnalysis ℝ
  sparsityWarning : Option String

/-- The sparsity warning that `analyzeDataset` attaches: the
forced-to-baseline branch sets one of the two forced warnings (keyed on
`sparsity > 0.5 AND homogeneity < 0.3`), and afterwards
`if (!result.sparsityWarning && sparsity > 0.6)` sets one of the two
generic warnings (keyed on `homogeneity < 0.4`). -/
noncomputable def composerWarning (w : WeightResult) (sparsity homogeneity : ℝ) :
    Option String :=
  let warn0 : Option String :=
    if wasForcedToBaseline w then
      if sparsity > 0.5 ∧ homogeneity < 0.3 then some warnForcedStructured
      else some warnForcedUniform
    else none
  if warn0 = none ∧ sparsity > 0.6 then
    if homogeneity < 0.4 then some warnStructured else some warnCaution
  else warn0

/-- The `color` field of `analyzeDataset`'s result: `COLORS[strategy]`,
except that the structured-sparsity sub-branch of the forced-to-baseline
branch reassigns it to the pre-penalty dominant strategy's color. -/
noncomputable def composerColor (w : WeightResult) (sparsity homogeneity : ℝ) :
    String :=
  if wasForcedToBaseline w ∧ sparsity > 0.5 ∧ homogeneity < 0.3 then
    COLORS w.dominantOriginal
  else COLORS (pickStrategy w)

/-- The fold-target block of `analyzeDataset`: Leave-One-Out label check
first, then `folds > minority`, then the minority bands 200 / 500. -/
noncomputable def composerFoldTarget (minority folds : ℝ) (fa : FoldAnalysis ℝ) :
    FoldTargetMsg :=
  if strIncludes fa.label "Leave-One-Out" then .loocv
  else if folds > minority then .invalid
  else if minority < 200 then .target15 fa.minPerFold
  else if minority < 500 then .target30 fa.minPerFold
  else .sufficient

/-- The sampling-mix companion of `composerFoldTarget` (same branch
structure, by the source). -/
noncomputable def composerSamplingMix (minority folds : ℝ) (fa : FoldAnalysis ℝ) :
    SamplingMixMsg :=
  if strIncludes fa.label "Leave-One-Out" then .allData
  else if folds > minority then .cannotStratify folds minority
  else if minority < 200 then .primaryOversampling
  else if minority < 500 then .baselineNone
  else .undersamplingEnsemble

/-- `analyzeDataset` from the source, restricted to the embedded fields:
winner selection, the forced-to-baseline warning/color logic and the
fold-target / sampling-mix block (each factored into the named composer
functions above, in source branch order). -/
noncomputable def analyzeDataset (params : DatasetParams) : Recommendation :=
  let w := calculateWeights params.features params.minority params.total
    params.sparsity params.sparsityHomogeneity
  let foldAnalysis := analyzeFolds params.minority params.folds params.total
  { strategy := pickStrategy w
    foldTarget := composerFoldTarget params.minority params.folds foldAnalysis
    samplingMix := composerSamplingMix params.minority params.folds foldAnalysis
    color := composerColor w params.sparsity params.sparsityHomogeneity
    foldAnalysis := foldAnalysis
    sparsityWarning := composerWarning w params.sparsity params.sparsityHomogeneity }

/-! ### Spec-side definitions, for refinement comparisons

The following definitions are written from the specification's words (not
from the source); theorems below compare them with the source-derived
definitions above. -/

section SpecSide

variable {α : Type} [LinearOrderedField α] [FloorRing α]

/-- Written from the spec: classification order (first match wins):
`effectiveFolds >= total OR effectiveFolds >= 5000` gives LOO; else
`effectiveFolds > minority` gives IMPOSSIBLE; else `minPerFold < 1.5` gives
LOPO; else `minPerFold < 15` gives VARIANCE; else STABLE, with
`effectiveFolds = min(folds, total)` and
`minPerFold = minority / effectiveFolds`. -/
def foldStatusSpec (minority folds total : α) : FoldStatusKey :=
  if min folds total ≥ total ∨ min folds total ≥ 5000 then .LOO
  else if min folds total > minority then .IMPOSSIBLE
  else if minority / min folds total < 1.5 then .LOPO
  else if minority / min folds total < 15 then .VARIANCE
  else .STABLE

/-- Written from claim C4's words: the raw quotient truncated (rounded
toward zero) to 2 decimal places when it is below 1, and its floor
otherwise. -/
def displayTruncSpec (q : α) : α :=
  if q < 1 then
    (if 0 ≤ q then ((⌊q * 100⌋ : ℤ) : α) / 100 else ((⌈q * 100⌉ : ℤ) : α) / 100)
  else ((⌊q⌋ : ℤ) : α)

/-- The amended display rule for C4: the raw quotient rounded to the
nearest hundredth (exact ties toward the larger value) when it is below 1,
and its floor otherwise. -/
def displayRoundSpec (q : α) : α :=
  if q < 1 then ((⌊q * 100 + 1/2⌋ : ℤ) : α) / 100
  else ((⌊q⌋ : ℤ) : α)

/-- Written from the spec: `viabilityScore = min(100, minPerFold/30*100)`,
overridden to exactly 0 if stratification is impossible and it is not
simultaneously a LOOCV case. -/
def viabilitySpec (minority folds total : α) : α :=
  let eff := min folds total
  if eff > minority ∧ ¬(eff ≥ total ∨ eff ≥ 5000) then 0
  else min 100 (minority / eff / 30 * 100)

end SpecSide

/-! ## Theorems -/

section FoldAnalyzerLemmas

variable {α : Type} [LinearOrderedField α] [FloorRing α]

lemma foldStatusKey_eq_LOO_iff (m f t : α) :
    foldStatusKey m f t = .LOO ↔ (min f t ≥ t ∨ min f t ≥ 5000) := by
  dsimp only [foldStatusKey, effectiveFolds]
  split_ifs with h1 h2 h3 h4 <;> simp_all

lemma foldStatusKey_eq_IMPOSSIBLE_iff (m f t : α) :
    foldStatusKey m f t = .IMPOSSIBLE ↔
      (¬(min f t ≥ t ∨ min f t ≥ 5000) ∧ min f t > m) := by
  dsimp only [foldStatusKey, effectiveFolds]
  split_ifs with h1 h2 h3 h4 <;> simp_all

omit [FloorRing α] in
lemma min_eq_folds_of_not_LOO {f t : α} (h : ¬(min f t ≥ t ∨ min f t ≥ 5000)) :
    min f t = f := by
  rcases min_cases f t with ⟨he, _⟩ | ⟨he, _⟩
  · exact he
  · exact absurd (Or.inl (ge_of_eq he)) h

lemma label_includes_LOO_iff (k : FoldStatusKey) :
    strIncludes (FOLD_STATUS_CONFIG k).label "Leave-One-Out" = true ↔
      k = .LOO := by
  cases k <;> decide

lemma label_eq_invalid_iff (k : FoldStatusKey) :
    (FOLD_STATUS_CONFIG k).label = "Statistically Invalid" ↔
      k = .IMPOSSIBLE := by
  cases k <;> decide

lemma analyzeFolds_label (m f t : α) :
    (analyzeFolds m f t).label
      = (FOLD_STATUS_CONFIG (foldStatusKey m f t)).label := rfl

end FoldAnalyzerLemmas

/-- Claim C4 is refuted: at minority = 7, folds = 9, total = 9 the raw
quotient is 7/9 < 1; the source displays `Number((7/9).toFixed(2)) = 0.78`
(rounding to the nearest hundredth), while the claim's truncation toward
zero would give 0.77. -/
theorem claim_C4_counterexample :
    (analyzeFolds (7 : ℚ) 9 9).minPerFold = 78 / 100 ∧
    displayTruncSpec ((7 : ℚ) / min (9 : ℚ) 9) = 77 / 100 ∧
    (analyzeFolds (7 : ℚ) 9 9).minPerFold ≠
      displayTruncSpec ((7 : ℚ) / min (9 : ℚ) 9) := by
  refine ⟨?_, ?_, ?_⟩
  · norm_num [analyzeFolds, effectiveFolds, toFixed2, min_def]
  · norm_num [displayTruncSpec, min_def]
  · norm_num [analyzeFolds, effectiveFolds, toFixed2, displayTruncSpec, min_def]

/-- Claim C4, amended: for every minority ≥ 0, folds ≥ 1, total ≥ 1, the
`minPerFold` field that `analyzeFolds` returns for display equals the raw
quotient minority / min(folds, total) rounded to the NEAREST hundredth
(exact ties toward the larger value, as `toFixed(2)` rounds) when that
quotient is < 1, and equals its floor (integer part) otherwise. -/
theorem claim_C4 (m f t : ℚ) (hm : 0 ≤ m) (hf : 1 ≤ f) (ht : 1 ≤ t) :
    (analyzeFolds m f t).minPerFold = displayRoundSpec (m / min f t) := rfl

/-- Witness for the amended claim C4 at (minority, folds, total) =
(7, 9, 9). -/
theorem claim_C4_witness :
    (0 : ℚ) ≤ 7 ∧ (1 : ℚ) ≤ 9 ∧
    (analyzeFolds (7 : ℚ) 9 9).minPerFold = displayRoundSpec ((7 : ℚ) / min (9 : ℚ) 9) :=
  ⟨by norm_num, by norm_num,
    claim_C4 7 9 9 (by norm_num) (by norm_num) (by norm_num)⟩

/-- Claim C5, confirmed: `analyzeFolds` assigns the status category by the
spec's first-match order (the label it returns is the label of the
spec-side classification `foldStatusSpec`), and in particular
`analyzeFolds(150, 5, 2000)` is STABLE, `analyzeFolds(10, 20, 2000)` is
IMPOSSIBLE, and `analyzeFolds(100, 2000, 2000)` is LOO. -/
theorem claim_C5 (m f t : ℚ) (hm : 0 ≤ m) (hf : 1 ≤ f) (ht : 1 ≤ t) :
    (analyzeFolds m f t).label
        = (FOLD_STATUS_CONFIG (foldStatusSpec m f t)).label ∧
    (analyzeFolds (150 : ℚ) 5 2000).label = "Stable Evaluation" ∧
    (analyzeFolds (10 : ℚ) 20 2000).label = "Statistically Invalid" ∧
    (analyzeFolds (100 : ℚ) 2000 2000).label = "Leave-One-Out Cross-Validation" := by
  refine ⟨rfl, ?_, ?_, ?_⟩ <;>
    norm_num [analyzeFolds, foldStatusKey, effectiveFolds, FOLD_STATUS_CONFIG, min_def]

/-- Witness for claim C5 at (minority, folds, total) = (150, 5, 2000). -/
theorem claim_C5_witness :
    (0 : ℚ) ≤ 150 ∧ (1 : ℚ) ≤ 5 ∧ (1 : ℚ) ≤ 2000 ∧
    (analyzeFolds (150 : ℚ) 5 2000).label
      = (FOLD_STATUS_CONFIG (foldStatusSpec (150 : ℚ) 5 2000)).label :=
  ⟨by norm_num, by norm_num, by norm_num,
    (claim_C5 150 5 2000 (by norm_num) (by norm_num) (by norm_num)).1⟩

/-- Claim C6, confirmed: the viability score that `analyzeFolds` returns
equals the spec formula min(100, minPerFold/30*100), overridden to exactly
0 when stratification is impossible and the input is not simultaneously a
Leave-One-Out case; consequently it always lies in [0, 100]. -/
theorem claim_C6 (m f t : ℚ) (hm : 0 ≤ m) (hf : 1 ≤ f) (ht : 1 ≤ t) :
    (analyzeFolds m f t).viabilityScore = viabilitySpec m f t ∧
    0 ≤ (analyzeFolds m f t).viabilityScore ∧
    (analyzeFolds m f t).viabilityScore ≤ 100 := by
  have heq : (analyzeFolds m f t).viabilityScore = viabilitySpec m f t := rfl
  have heffpos : (0 : ℚ) < min f t := lt_of_lt_of_le one_pos (le_min hf ht)
  have hq : (0 : ℚ) ≤ m / min f t / 30 * 100 :=
    mul_nonneg (div_nonneg (div_nonneg hm heffpos.le) (by norm_num)) (by norm_num)
  refine ⟨heq, ?_, ?_⟩
  · rw [heq]; dsimp only [viabilitySpec]; split_ifs
    · norm_num
    · exact le_min (by norm_num) hq
  · rw [heq]; dsimp only [viabilitySpec]; split_ifs
    · norm_num
    · exact min_le_left _ _

/-- Witness for claim C6 at (minority, folds, total) = (10, 20, 2000). -/
theorem claim_C6_witness :
    (0 : ℚ) ≤ 10 ∧ (1 : ℚ) ≤ 20 ∧ (1 : ℚ) ≤ 2000 ∧
    (analyzeFolds (10 : ℚ) 20 2000).viabilityScore = viabilitySpec (10 : ℚ) 20 2000 :=
  ⟨by norm_num, by norm_num, by norm_num,
    (claim_C6 10 20 2000 (by norm_num) (by norm_num) (by norm_num)).1⟩

/-- Claim C10, confirmed: under the precondition folds ≥ 1 and total ≥ 1
the divisor `effectiveFolds = min(folds, total)` used by `analyzeFolds` is
at least 1 (so `minPerFold` and `minInTraining` are well-defined finite
quotients); at the boundary total = 0 that divisor is 0 (the precondition
is necessary: `analyzeFolds` never floors its divisor); and the divisor
`max(1, folds)` that `getFoldStabilityRGB` uses is at least 1
unconditionally. -/
theorem claim_C10 (f t : ℚ) (hf : 1 ≤ f) (ht : 1 ≤ t) :
    1 ≤ effectiveFolds f t ∧ effectiveFolds f 0 = 0 ∧
    1 ≤ foldColorDivisor f := by
  refine ⟨le_min hf ht, ?_, le_max_left 1 f⟩
  exact min_eq_right (le_trans zero_le_one hf)

/-- Witness for claim C10 at folds = 5, total = 10. -/
theorem claim_C10_witness :
    (1 : ℚ) ≤ 5 ∧ (1 : ℚ) ≤ 10 ∧
    (1 ≤ effectiveFolds (5 : ℚ) 10 ∧ effectiveFolds (5 : ℚ) 0 = 0 ∧
      1 ≤ foldColorDivisor (5 : ℚ)) :=
  ⟨by norm_num, by norm_num, claim_C10 5 10 (by norm_num) (by norm_num)⟩

section RealAnalysisHelpers

/-- Lower-bound `logb 10 x` by a fraction `a/b` via the integer inequality
`10^a < x^b`. -/
lemma logb_ten_gt {x : ℝ} {a b : ℕ} (hb : 0 < b) (hx : 0 < x)
    (h : (10 : ℝ) ^ a < x ^ b) : (a : ℝ) / (b : ℝ) < Real.logb 10 x := by
  have hlog : Real.log ((10 : ℝ) ^ a) < Real.log (x ^ b) :=
    Real.log_lt_log (by positivity) h
  rw [Real.log_pow, Real.log_pow] at hlog
  have hbpos : (0 : ℝ) < (b : ℝ) := by exact_mod_cast hb
  rw [Real.logb, div_lt_div_iff hbpos (Real.log_pos (by norm_num))]
  nlinarith [hlog]

/-- Upper-bound `logb 10 x` by a fraction `a/b` via `x^b < 10^a`. -/
lemma logb_ten_lt {x : ℝ} {a b : ℕ} (hb : 0 < b) (hx : 0 < x)
    (h : x ^ b < (10 : ℝ) ^ a) : Real.logb 10 x < (a : ℝ) / (b : ℝ) := by
  have hlog : Real.log (x ^ b) < Real.log ((10 : ℝ) ^ a) :=
    Real.log_lt_log (by positivity) h
  rw [Real.log_pow, Real.log_pow] at hlog
  have hbpos : (0 : ℝ) < (b : ℝ) := by exact_mod_cast hb
  rw [Real.logb, div_lt_div_iff (Real.log_pos (by norm_num)) hbpos]
  nlinarith [hlog]

/-- `exp x` dominates `2.7^n` whenever `n ≤ x`. -/
lemma exp_ge_pow (n : ℕ) {x : ℝ} (hx : (n : ℝ) ≤ x) :
    (27 / 10 : ℝ) ^ n ≤ Real.exp x := by
  have h1 : (27 / 10 : ℝ) ≤ Real.exp 1 := by
    have := Real.exp_one_gt_d9
    norm_num at this ⊢
    linarith
  calc (27 / 10 : ℝ) ^ n ≤ Real.exp 1 ^ n :=
        pow_le_pow_left (by norm_num) h1 n
    _ = Real.exp (n : ℝ) := by rw [← Real.exp_nat_mul, mul_one]
    _ ≤ Real.exp x := Real.exp_le_exp.mpr hx

lemma one_div_one_add_exp_lt {y ε : ℝ} (hε : 0 < ε) (h : 1 / ε ≤ Real.exp y) :
    1 / (1 + Real.exp y) < ε := by
  have h0 := Real.exp_pos y
  rw [div_lt_iff (by linarith)]
  have h1 : 1 ≤ Real.exp y * ε := (div_le_iff hε).mp h
  nlinarith

/-- `sigmoid` with the exponent argument written with the threshold first
(`-(k*(x-t)) = k*(t-x)`). -/
lemma sigmoid_eq (v t k : ℝ) :
    sigmoid v t k =
      1 / (1 + Real.exp (k * (Real.logb 10 (max t 1) - Real.logb 10 (max v 1)))) := by
  unfold sigmoid
  rw [show -(k * (Real.logb 10 (max v 1) - Real.logb 10 (max t 1)))
      = k * (Real.logb 10 (max t 1) - Real.logb 10 (max v 1)) by ring]

lemma sigmoid_pos (v t k : ℝ) : 0 < sigmoid v t k := by
  unfold sigmoid
  positivity

lemma sigmoid_lt_one (v t k : ℝ) : sigmoid v t k < 1 := by
  unfold sigmoid
  rw [div_lt_one (by positivity)]
  have := Real.exp_pos (-(k * (Real.logb 10 (max v 1) - Real.logb 10 (max t 1))))
  linarith

/-- An upper bound on `sigmoid` from a lower bound `A` on its (rewritten)
exponent and an exponential bound `1/ε ≤ exp A`. -/
lemma sigmoid_lt {v t k ε A : ℝ} (hε : 0 < ε)
    (hA : A ≤ k * (Real.logb 10 (max t 1) - Real.logb 10 (max v 1)))
    (hexp : 1 / ε ≤ Real.exp A) : sigmoid v t k < ε := by
  rw [sigmoid_eq]
  exact one_div_one_add_exp_lt hε (le_trans hexp (Real.exp_le_exp.mpr hA))

/-- `sigmoid` is antitone in the threshold (for `k ≥ 0`). -/
lemma sigmoid_anti_threshold {v k t1 t2 : ℝ} (hk : 0 ≤ k) (h : t1 ≤ t2) :
    sigmoid v t2 k ≤ sigmoid v t1 k := by
  rw [sigmoid_eq, sigmoid_eq]
  have hlog : Real.logb 10 (max t1 1) ≤ Real.logb 10 (max t2 1) :=
    Real.logb_le_logb_of_le (by norm_num)
      (lt_of_lt_of_le one_pos (le_max_right t1 1)) (max_le_max h le_rfl)
  have hexp : Real.exp (k * (Real.logb 10 (max t1 1) - Real.logb 10 (max v 1)))
      ≤ Real.exp (k * (Real.logb 10 (max t2 1) - Real.logb 10 (max v 1))) :=
    Real.exp_le_exp.mpr (by nlinarith)
  have h1 : (0 : ℝ) <
      1 + Real.exp (k * (Real.logb 10 (max t1 1) - Real.logb 10 (max v 1))) := by
    positivity
  exact one_div_le_one_div_of_le h1 (by linarith)

lemma logb4_gt : (3 : ℝ) / 5 < Real.logb 10 4 := by
  have h := logb_ten_gt (show 0 < 5 by norm_num) (show (0 : ℝ) < 4 by norm_num)
    (by norm_num : (10 : ℝ) ^ 3 < 4 ^ 5)
  push_cast at h
  linarith

lemma logb4_lt : Real.logb 10 4 < 61 / 100 := by
  have h := logb_ten_lt (show 0 < 100 by norm_num) (show (0 : ℝ) < 4 by norm_num)
    (by norm_num : (4 : ℝ) ^ 100 < 10 ^ 61)
  push_cast at h
  linarith

lemma logb200_gt : (23 : ℝ) / 10 < Real.logb 10 200 := by
  have h := logb_ten_gt (show 0 < 10 by norm_num) (show (0 : ℝ) < 200 by norm_num)
    (by norm_num : (10 : ℝ) ^ 23 < 200 ^ 10)
  push_cast at h
  linarith

lemma sig_5_20_lt : sigmoid 5 20 12 < 0.001 := by
  refine sigmoid_lt (A := 7) (by norm_num) ?_ ?_
  · rw [show max (20 : ℝ) 1 = 20 by norm_num, show max (5 : ℝ) 1 = 5 by norm_num,
      ← Real.logb_div (by norm_num) (by norm_num)]
    norm_num
    nlinarith [logb4_gt]
  · exact le_trans (by norm_num) (exp_ge_pow 7 (by norm_num))

lemma sig_5_100_lt : sigmoid 5 100 12 < 0.001 :=
  lt_of_le_of_lt (sigmoid_anti_threshold (by norm_num) (by norm_num)) sig_5_20_lt

lemma sig_50_200_lt : sigmoid 50 200 10 < 0.0026 := by
  refine sigmoid_lt (A := 6) (by norm_num) ?_ ?_
  · rw [show max (200 : ℝ) 1 = 200 by norm_num, show max (50 : ℝ) 1 = 50 by norm_num,
      ← Real.logb_div (by norm_num) (by norm_num)]
    norm_num
    nlinarith [logb4_gt]
  · exact le_trans (by norm_num) (exp_ge_pow 6 (by norm_num))

lemma sig_2_20_lt : sigmoid 2 20 12 < 0.01 := by
  refine sigmoid_lt (A := 12) (by norm_num) ?_ ?_
  · rw [show max (20 : ℝ) 1 = 20 by norm_num, show max (2 : ℝ) 1 = 2 by norm_num,
      ← Real.logb_div (by norm_num) (by norm_num)]
    norm_num
  · exact le_trans (by norm_num) (exp_ge_pow 12 (by norm_num))

lemma sig_2_100_lt : sigmoid 2 100 12 < 0.01 :=
  lt_of_le_of_lt (sigmoid_anti_threshold (by norm_num) (by norm_num)) sig_2_20_lt

lemma sig_1_200_lt : sigmoid 1 200 10 < 1 / 223 := by
  refine sigmoid_lt (A := 23) (by norm_num) ?_ ?_
  · rw [show max (200 : ℝ) 1 = 200 by norm_num, show max (1 : ℝ) 1 = 1 by norm_num,
      Real.logb_one]
    nlinarith [logb200_gt]
  · exact le_trans (by norm_num) (exp_ge_pow 23 (by norm_num))

lemma threshold_5 : getMinorityThreshold 5 = 200 := by
  unfold getMinorityThreshold
  rw [if_pos (by norm_num : (5 : ℝ) ≤ 20)]

lemma threshold_2 : getMinorityThreshold 2 = 200 := by
  unfold getMinorityThreshold
  rw [if_pos (by norm_num : (2 : ℝ) ≤ 20)]

lemma rpow_08_25 : (0.8 : ℝ) ^ (2.5 : ℝ) = Real.sqrt 0.32768 := by
  rw [show (2.5 : ℝ) = ((5 : ℕ) : ℝ) * (1 / 2 : ℝ) by norm_num,
    Real.rpow_mul (by norm_num : (0 : ℝ) ≤ 0.8), Real.rpow_natCast,
    Real.sqrt_eq_rpow]
  norm_num

lemma sqrt_032768_bounds :
    0.5724 < Real.sqrt 0.32768 ∧ Real.sqrt 0.32768 < 0.5725 :=
  ⟨(Real.lt_sqrt (by norm_num)).mpr (by norm_num),
    (Real.sqrt_lt' (by norm_num)).mpr (by norm_num)⟩

lemma stab_08_08_bounds :
    0.519 < getDistanceStability 0.8 0.8 ∧ getDistanceStability 0.8 0.8 < 0.5192 := by
  have h := sqrt_032768_bounds
  unfold getDistanceStability
  rw [if_neg (by norm_num : ¬((0.8 : ℝ) < 0.3))]
  dsimp only
  rw [rpow_08_25]
  rw [max_eq_right (by nlinarith : (0 : ℝ) ≤ 1 - Real.sqrt 0.32768 * (0.2 + 0.8 * 0.8))]
  constructor <;> nlinarith

/-- In the documented sparsity ranges, stability lies in (0, 1]. -/
lemma stability_mem {s h : ℝ} (hs0 : 0 ≤ s) (hs1 : s ≤ 0.99) (hh0 : 0 ≤ h)
    (hh1 : h ≤ 1) :
    0 < getDistanceStability s h ∧ getDistanceStability s h ≤ 1 := by
  unfold getDistanceStability
  split_ifs with hc
  · norm_num
  · dsimp only
    have hs3 : (0.3 : ℝ) ≤ s := not_lt.mp hc
    have hrpow_lt : s ^ (2.5 : ℝ) < 1 :=
      Real.rpow_lt_one hs0 (by linarith) (by norm_num)
    have hrpow_pos : 0 < s ^ (2.5 : ℝ) :=
      Real.rpow_pos_of_pos (by linarith) _
    have himp1 : 0.2 + 0.8 * h ≤ 1 := by linarith
    have himp0 : (0 : ℝ) < 0.2 + 0.8 * h := by linarith
    constructor
    · exact lt_max_of_lt_right (by nlinarith)
    · exact max_le (by norm_num) (by nlinarith)

/-- Stability is non-negative for all inputs (the source clamps at 0). -/
lemma stability_nonneg (s h : ℝ) : 0 ≤ getDistanceStability s h := by
  unfold getDistanceStability
  split_ifs
  · norm_num
  · exact le_max_left 0 _

end RealAnalysisHelpers

section WeightEngineLemmas

lemma rawWeights_wOversample (p nMin nTotal : ℝ) :
    (rawWeights p nMin nTotal).wOversample =
      (if isLowDim p > 0.01 then isLowDim p * isTinyMin p nMin else 0) := rfl

lemma rawWeights_wUndersample (p nMin nTotal : ℝ) :
    (rawWeights p nMin nTotal).wUndersample =
      (if isLowDim p > 0.01 then
        isLowDim p * (1 - isTinyMin p nMin) * efficiencyPressure nMin nTotal else 0) +
      (if isMedDim p > 0.01 then
        isMedDim p * (1 - isTinyMin p nMin) * efficiencyPressure nMin nTotal else 0) +
      (if isHighDim p > 0.01 then isHighDim p * (1 - isTinyMin p nMin) else 0) := rfl

lemma rawWeights_wHybrid (p nMin nTotal : ℝ) :
    (rawWeights p nMin nTotal).wHybrid =
      (if isMedDim p > 0.01 then isMedDim p * isTinyMin p nMin else 0) +
      (if isHighDim p > 0.01 then isHighDim p * isTinyMin p nMin else 0) := rfl

lemma rawWeights_wBaseline (p nMin nTotal : ℝ) :
    (rawWeights p nMin nTotal).wBaseline =
      (if (rawWeights p nMin nTotal).wOversample +
            (rawWeights p nMin nTotal).wUndersample +
            (rawWeights p nMin nTotal).wHybrid +
            ((if isLowDim p > 0.01 then
              isLowDim p * (1 - isTinyMin p nMin) *
                (1 - efficiencyPressure nMin nTotal) else 0) +
             (if isMedDim p > 0.01 then
              isMedDim p * (1 - isTinyMin p nMin) *
                (1 - efficiencyPressure nMin nTotal) else 0)) < 0.001 then 1
      else
        (if isLowDim p > 0.01 then
          isLowDim p * (1 - isTinyMin p nMin) *
            (1 - efficiencyPressure nMin nTotal) else 0) +
        (if isMedDim p > 0.01 then
          isMedDim p * (1 - isTinyMin p nMin) *
            (1 - efficiencyPressure nMin nTotal) else 0)) := rfl

lemma rawWeights_dominantOriginal (p nMin nTotal : ℝ) :
    (rawWeights p nMin nTotal).dominantOriginal =
      (if max (max (rawWeights p nMin nTotal).wOversample
              (rawWeights p nMin nTotal).wUndersample)
            (max (rawWeights p nMin nTotal).wHybrid
              (rawWeights p nMin nTotal).wBaseline)
          = (rawWeights p nMin nTotal).wOversample then StrategyType.oversample
      else if max (max (rawWeights p nMin nTotal).wOversample
              (rawWeights p nMin nTotal).wUndersample)
            (max (rawWeights p nMin nTotal).wHybrid
              (rawWeights p nMin nTotal).wBaseline)
          = (rawWeights p nMin nTotal).wHybrid then StrategyType.hybrid
      else if max (max (rawWeights p nMin nTotal).wOversample
              (rawWeights p nMin nTotal).wUndersample)
            (max (rawWeights p nMin nTotal).wHybrid
              (rawWeights p nMin nTotal).wBaseline)
          = (rawWeights p nMin nTotal).wUndersample then StrategyType.undersample
      else StrategyType.baseline) := rfl

lemma dims_sum (p : ℝ) : isLowDim p + isMedDim p + isHighDim p = 1 := by
  unfold isMedDim
  ring

lemma isLowDim_mem (p : ℝ) : 0 < isLowDim p ∧ isLowDim p < 1 := by
  unfold isLowDim
  constructor
  · linarith [sigmoid_lt_one p 20 12]
  · linarith [sigmoid_pos p 20 12]

lemma isHighDim_mem (p : ℝ) : 0 < isHighDim p ∧ isHighDim p < 1 :=
  ⟨sigmoid_pos p 100 12, sigmoid_lt_one p 100 12⟩

lemma isMedDim_nonneg (p : ℝ) : 0 ≤ isMedDim p := by
  unfold isMedDim isLowDim isHighDim
  have := sigmoid_anti_threshold (v := p) (k := 12)
    (by norm_num : (0 : ℝ) ≤ 12) (by norm_num : (20 : ℝ) ≤ 100)
  linarith

lemma isTinyMin_mem (p nMin : ℝ) : 0 < isTinyMin p nMin ∧ isTinyMin p nMin < 1 := by
  unfold isTinyMin
  constructor
  · linarith [sigmoid_lt_one nMin (getMinorityThreshold p) 10]
  · linarith [sigmoid_pos nMin (getMinorityThreshold p) 10]

lemma efficiencyPressure_mem (nMin nTotal : ℝ) :
    0 < efficiencyPressure nMin nTotal ∧ efficiencyPressure nMin nTotal < 1 := by
  unfold efficiencyPressure
  exact ⟨lt_max_of_lt_left (sigmoid_pos _ _ _),
    max_lt (sigmoid_lt_one _ _ _) (sigmoid_lt_one _ _ _)⟩

lemma ite_term_nonneg {c : Prop} [Decidable c] {x : ℝ} (hx : c → 0 ≤ x) :
    0 ≤ if c then x else 0 := by
  split_ifs with hc
  · exact hx hc
  · exact le_refl 0

lemma rawWeights_nonneg (p nMin nTotal : ℝ) :
    0 ≤ (rawWeights p nMin nTotal).wOversample ∧
    0 ≤ (rawWeights p nMin nTotal).wUndersample ∧
    0 ≤ (rawWeights p nMin nTotal).wHybrid ∧
    0 ≤ (rawWeights p nMin nTotal).wBaseline := by
  obtain ⟨hT0, hT1⟩ := isTinyMin_mem p nMin
  obtain ⟨hE0, hE1⟩ := efficiencyPressure_mem nMin nTotal
  obtain ⟨hL0, hL1⟩ := isLowDim_mem p
  obtain ⟨hH0, hH1⟩ := isHighDim_mem p
  have hM0 := isMedDim_nonneg p
  have h1T : (0 : ℝ) < 1 - isTinyMin p nMin := by linarith
  have h1E : (0 : ℝ) < 1 - efficiencyPressure nMin nTotal := by linarith
  have t1 : 0 ≤ isLowDim p * isTinyMin p nMin := (mul_pos hL0 hT0).le
  have t2 : 0 ≤ isLowDim p * (1 - isTinyMin p nMin) * efficiencyPressure nMin nTotal :=
    (mul_pos (mul_pos hL0 h1T) hE0).le
  have t3 : 0 ≤ isMedDim p * (1 - isTinyMin p nMin) * efficiencyPressure nMin nTotal :=
    mul_nonneg (mul_nonneg hM0 h1T.le) hE0.le
  have t4 : 0 ≤ isHighDim p * (1 - isTinyMin p nMin) := (mul_pos hH0 h1T).le
  have t5 : 0 ≤ isMedDim p * isTinyMin p nMin := mul_nonneg hM0 hT0.le
  have t6 : 0 ≤ isHighDim p * isTinyMin p nMin := (mul_pos hH0 hT0).le
  have t7 : 0 ≤ isLowDim p * (1 - isTinyMin p nMin) *
      (1 - efficiencyPressure nMin nTotal) := (mul_pos (mul_pos hL0 h1T) h1E).le
  have t8 : 0 ≤ isMedDim p * (1 - isTinyMin p nMin) *
      (1 - efficiencyPressure nMin nTotal) :=
    mul_nonneg (mul_nonneg hM0 h1T.le) h1E.le
  refine ⟨?_, ?_, ?_, ?_⟩
  · rw [rawWeights_wOversample]
    exact ite_term_nonneg fun _ => t1
  · rw [rawWeights_wUndersample]
    exact add_nonneg (add_nonneg (ite_term_nonneg fun _ => t2)
      (ite_term_nonneg fun _ => t3)) (ite_term_nonneg fun _ => t4)
  · rw [rawWeights_wHybrid]
    exact add_nonneg (ite_term_nonneg fun _ => t5) (ite_term_nonneg fun _ => t6)
  · rw [rawWeights_wBaseline]
    by_cases hc : (rawWeights p nMin nTotal).wOversample +
        (rawWeights p nMin nTotal).wUndersample +
        (rawWeights p nMin nTotal).wHybrid +
        ((if isLowDim p > 0.01 then
          isLowDim p * (1 - isTinyMin p nMin) *
            (1 - efficiencyPressure nMin nTotal) else 0) +
         (if isMedDim p > 0.01 then
          isMedDim p * (1 - isTinyMin p nMin) *
            (1 - efficiencyPressure nMin nTotal) else 0)) < 0.001
    · rw [if_pos hc]
      norm_num
    · rw [if_neg hc]
      exact add_nonneg (ite_term_nonneg fun _ => t7) (ite_term_nonneg fun _ => t8)

lemma rawWeights_wUndersample_pos (p nMin nTotal : ℝ) :
    0 < (rawWeights p nMin nTotal).wUndersample := by
  obtain ⟨hT0, hT1⟩ := isTinyMin_mem p nMin
  obtain ⟨hE0, hE1⟩ := efficiencyPressure_mem nMin nTotal
  have hsum := dims_sum p
  obtain ⟨hL0, hL1⟩ := isLowDim_mem p
  obtain ⟨hH0, hH1⟩ := isHighDim_mem p
  have hM0 := isMedDim_nonneg p
  have h1T : (0 : ℝ) < 1 - isTinyMin p nMin := by linarith
  have t2 : 0 ≤ isLowDim p * (1 - isTinyMin p nMin) * efficiencyPressure nMin nTotal :=
    (mul_pos (mul_pos hL0 h1T) hE0).le
  have t3 : 0 ≤ isMedDim p * (1 - isTinyMin p nMin) * efficiencyPressure nMin nTotal :=
    mul_nonneg (mul_nonneg hM0 h1T.le) hE0.le
  have t4 : 0 ≤ isHighDim p * (1 - isTinyMin p nMin) := (mul_pos hH0 h1T).le
  rw [rawWeights_wUndersample]
  by_cases hL : isLowDim p > 0.01
  · refine add_pos_of_pos_of_nonneg (add_pos_of_pos_of_nonneg ?_
      (ite_term_nonneg fun _ => t3)) (ite_term_nonneg fun _ => t4)
    rw [if_pos hL]
    exact mul_pos (mul_pos hL0 h1T) hE0
  · by_cases hM : isMedDim p > 0.01
    · refine add_pos_of_pos_of_nonneg (add_pos_of_nonneg_of_pos
        (ite_term_nonneg fun _ => t2) ?_) (ite_term_nonneg fun _ => t4)
      rw [if_pos hM]
      exact mul_pos (mul_pos (by linarith) h1T) hE0
    · have hHi : isHighDim p > 0.01 := by
        have h1 := not_lt.mp hL
        have h2 := not_lt.mp hM
        nlinarith
      refine add_pos_of_nonneg_of_pos (add_nonneg
        (ite_term_nonneg fun _ => t2) (ite_term_nonneg fun _ => t3)) ?_
      rw [if_pos hHi]
      exact mul_pos hH0 h1T

/-- The algebra of the source's penalty step: because `wBaseline` receives
`penalty` times the already-reduced `wOversample` and `wHybrid`, the
post-penalty fields relate to the pre-penalty ones by the factors below.
Requires only that stability does not exceed 1 (true in the documented
ranges). -/
lemma penalty_step (p nMin nTotal s h : ℝ)
    (hst : getDistanceStability s h ≤ 1) :
    (calculateWeights p nMin nTotal s h).wOversample
        = (rawWeights p nMin nTotal).wOversample * getDistanceStability s h ∧
    (calculateWeights p nMin nTotal s h).wUndersample
        = (rawWeights p nMin nTotal).wUndersample ∧
    (calculateWeights p nMin nTotal s h).wHybrid
        = (rawWeights p nMin nTotal).wHybrid * getDistanceStability s h ∧
    (calculateWeights p nMin nTotal s h).wBaseline
        = (rawWeights p nMin nTotal).wBaseline
          + (1 - getDistanceStability s h) * getDistanceStability s h
            * ((rawWeights p nMin nTotal).wOversample
               + (rawWeights p nMin nTotal).wHybrid) := by
  unfold calculateWeights
  dsimp only
  split_ifs with hpen
  · exact ⟨by ring, rfl, by ring, by ring⟩
  · have h1 : getDistanceStability s h = 1 :=
      le_antisymm hst (by linarith [not_lt.mp hpen])
    exact ⟨by rw [h1]; ring, rfl, by rw [h1]; ring, by rw [h1]; ring⟩

lemma calculateWeights_stability (p nMin nTotal s h : ℝ) :
    (calculateWeights p nMin nTotal s h).stability = getDistanceStability s h := by
  unfold calculateWeights
  dsimp only
  split_ifs <;> rfl

lemma calculateWeights_dominantOriginal (p nMin nTotal s h : ℝ) :
    (calculateWeights p nMin nTotal s h).dominantOriginal
      = (rawWeights p nMin nTotal).dominantOriginal := by
  unfold calculateWeights
  dsimp only
  split_ifs <;> rfl

/-- The total post-penalty mass equals the pre-penalty mass minus
`penalty^2` times the pre-penalty oversample+hybrid mass. -/
lemma penalty_sum (p nMin nTotal s h : ℝ)
    (hst : getDistanceStability s h ≤ 1) :
    (calculateWeights p nMin nTotal s h).wOversample
      + (calculateWeights p nMin nTotal s h).wUndersample
      + (calculateWeights p nMin nTotal s h).wHybrid
      + (calculateWeights p nMin nTotal s h).wBaseline
    = ((rawWeights p nMin nTotal).wOversample
        + (rawWeights p nMin nTotal).wUndersample
        + (rawWeights p nMin nTotal).wHybrid
        + (rawWeights p nMin nTotal).wBaseline)
      - (1 - getDistanceStability s h) ^ 2
        * ((rawWeights p nMin nTotal).wOversample
           + (rawWeights p nMin nTotal).wHybrid) := by
  obtain ⟨e1, e2, e3, e4⟩ := penalty_step p nMin nTotal s h hst
  rw [e1, e2, e3, e4]
  ring

/-- The four weights are non-negative and their sum is strictly positive,
for all inputs with sparsity in [0, 0.99] and homogeneity in [0, 1]. -/
lemma calculateWeights_nonneg_sum_pos (p nMin nTotal s h : ℝ)
    (hs0 : 0 ≤ s) (hs1 : s ≤ 0.99) (hh0 : 0 ≤ h) (hh1 : h ≤ 1) :
    0 ≤ (calculateWeights p nMin nTotal s h).wOversample ∧
    0 ≤ (calculateWeights p nMin nTotal s h).wUndersample ∧
    0 ≤ (calculateWeights p nMin nTotal s h).wHybrid ∧
    0 ≤ (calculateWeights p nMin nTotal s h).wBaseline ∧
    0 < (calculateWeights p nMin nTotal s h).wOversample
      + (calculateWeights p nMin nTotal s h).wUndersample
      + (calculateWeights p nMin nTotal s h).wHybrid
      + (calculateWeights p nMin nTotal s h).wBaseline := by
  obtain ⟨hst0, hst1⟩ := stability_mem hs0 hs1 hh0 hh1
  obtain ⟨e1, e2, e3, e4⟩ := penalty_step p nMin nTotal s h hst1
  obtain ⟨r1, r2, r3, r4⟩ := rawWeights_nonneg p nMin nTotal
  have hU := rawWeights_wUndersample_pos p nMin nTotal
  have hO' : 0 ≤ (calculateWeights p nMin nTotal s h).wOversample := by
    rw [e1]
    exact mul_nonneg r1 hst0.le
  have hH' : 0 ≤ (calculateWeights p nMin nTotal s h).wHybrid := by
    rw [e3]
    exact mul_nonneg r3 hst0.le
  have hB' : 0 ≤ (calculateWeights p nMin nTotal s h).wBaseline := by
    rw [e4]
    have hpen : 0 ≤ 1 - getDistanceStability s h := by linarith
    have := mul_nonneg (mul_nonneg hpen hst0.le) (add_nonneg r1 r3)
    linarith
  refine ⟨hO', ?_, hH', hB', ?_⟩
  · rw [e2]
    exact r2
  · rw [e2]
    linarith

end WeightEngineLemmas

lemma analyzeDataset_foldTarget (P : DatasetParams) :
    (analyzeDataset P).foldTarget =
      (if strIncludes (analyzeFolds P.minority P.folds P.total).label
            "Leave-One-Out" then
        FoldTargetMsg.loocv
      else if P.folds > P.minority then FoldTargetMsg.invalid
      else if P.minority < 200 then
        FoldTargetMsg.target15 (analyzeFolds P.minority P.folds P.total).minPerFold
      else if P.minority < 500 then
        FoldTargetMsg.target30 (analyzeFolds P.minority P.folds P.total).minPerFold
      else FoldTargetMsg.sufficient) := rfl

lemma analyzeDataset_foldAnalysis (P : DatasetParams) :
    (analyzeDataset P).foldAnalysis = analyzeFolds P.minority P.folds P.total := rfl

/-- Claim C8, confirmed: the Composer's impossible-fold detector
(`foldTarget` set to the "INVALID CONFIGURATION" message, i.e.
`FoldTargetMsg.invalid`) and the Fold Analyzer's one (label
"Statistically Invalid") always agree; when folds > total the LOO branch
fires first in both paths, so the theoretically possible disagreement
never occurs. -/
theorem claim_C8 (P : DatasetParams) (hm : 0 ≤ P.minority) (hf : 1 ≤ P.folds)
    (ht : 1 ≤ P.total) :
    (analyzeDataset P).foldTarget = FoldTargetMsg.invalid ↔
      (analyzeDataset P).foldAnalysis.label = "Statistically Invalid" := by
  rw [analyzeDataset_foldTarget, analyzeDataset_foldAnalysis, analyzeFolds_label]
  by_cases hloo : foldStatusKey P.minority P.folds P.total = FoldStatusKey.LOO
  · rw [if_pos ((label_includes_LOO_iff _).mpr hloo), label_eq_invalid_iff]
    simp [hloo]
  · rw [if_neg (fun hc => hloo ((label_includes_LOO_iff _).mp hc))]
    have hnotloo : ¬(min P.folds P.total ≥ P.total ∨ min P.folds P.total ≥ 5000) :=
      fun hc => hloo ((foldStatusKey_eq_LOO_iff _ _ _).mpr hc)
    have hminf : min P.folds P.total = P.folds := min_eq_folds_of_not_LOO hnotloo
    by_cases himp : P.folds > P.minority
    · rw [if_pos himp, label_eq_invalid_iff]
      have hkey : foldStatusKey P.minority P.folds P.total = FoldStatusKey.IMPOSSIBLE :=
        (foldStatusKey_eq_IMPOSSIBLE_iff _ _ _).mpr
          ⟨hnotloo, by rw [hminf]; exact himp⟩
      simp [hkey]
    · rw [if_neg himp, label_eq_invalid_iff]
      have hkey : foldStatusKey P.minority P.folds P.total ≠ FoldStatusKey.IMPOSSIBLE := by
        intro hc
        have h2 := ((foldStatusKey_eq_IMPOSSIBLE_iff _ _ _).mp hc).2
        rw [hminf] at h2
        exact himp h2
      split_ifs <;> simp [hkey]

/-- Witness for claim C8 at (features, minority, total, folds, sparsity,
homogeneity) = (5, 10, 2000, 20, 0, 0), an IMPOSSIBLE configuration. -/
theorem claim_C8_witness :
    (0 : ℝ) ≤ 10 ∧ (1 : ℝ) ≤ 20 ∧ (1 : ℝ) ≤ 2000 ∧
    ((analyzeDataset ⟨5, 10, 2000, 20, 0, 0⟩).foldTarget = FoldTargetMsg.invalid ↔
      (analyzeDataset ⟨5, 10, 2000, 20, 0, 0⟩).foldAnalysis.label
        = "Statistically Invalid") :=
  ⟨by norm_num, by norm_num, by norm_num,
    claim_C8 ⟨5, 10, 2000, 20, 0, 0⟩ (by norm_num) (by norm_num) (by norm_num)⟩

/-- Claim C7, confirmed: for every input in the documented ranges the four
weights returned by `calculateWeights` are non-negative and their sum is
strictly positive.  (The proof does not even need the `totalW < 0.001`
fallback: the undersample weight is always strictly positive because the
three regime masses sum to 1, so at least one regime is active.) -/
theorem claim_C7 (p nMin nTotal s h : ℝ) (hp : 0 < p) (hn : 0 < nMin)
    (htot : nMin ≤ nTotal) (hs0 : 0 ≤ s) (hs1 : s ≤ 0.99)
    (hh0 : 0 ≤ h) (hh1 : h ≤ 1) :
    0 ≤ (calculateWeights p nMin nTotal s h).wOversample ∧
    0 ≤ (calculateWeights p nMin nTotal s h).wUndersample ∧
    0 ≤ (calculateWeights p nMin nTotal s h).wHybrid ∧
    0 ≤ (calculateWeights p nMin nTotal s h).wBaseline ∧
    0 < (calculateWeights p nMin nTotal s h).wOversample
      + (calculateWeights p nMin nTotal s h).wUndersample
      + (calculateWeights p nMin nTotal s h).wHybrid
      + (calculateWeights p nMin nTotal s h).wBaseline :=
  calculateWeights_nonneg_sum_pos p nMin nTotal s h hs0 hs1 hh0 hh1

/-- Witness for claim C7 at (5, 50, 2000, 0, 0.5). -/
theorem claim_C7_witness :
    (0 : ℝ) < 5 ∧ (0 : ℝ) < 50 ∧ (50 : ℝ) ≤ 2000 ∧
    0 < (calculateWeights 5 50 2000 0 0.5).wOversample
      + (calculateWeights 5 50 2000 0 0.5).wUndersample
      + (calculateWeights 5 50 2000 0 0.5).wHybrid
      + (calculateWeights 5 50 2000 0 0.5).wBaseline :=
  ⟨by norm_num, by norm_num, by norm_num,
    (claim_C7 5 50 2000 0 0.5 (by norm_num) (by norm_num) (by norm_num)
      (by norm_num) (by norm_num) (by norm_num) (by norm_num)).2.2.2.2⟩

/-- Claim C9, confirmed: the undersample weight and the pre-penalty
dominant tag returned by `calculateWeights` are independent of the sparsity
inputs — two runs agreeing on (features, minority, total) but with
arbitrary sparsity / homogeneity values in [0, 1] return the same
`wUndersample` and the same `dominantOriginal`. -/
theorem claim_C9 (p nMin nTotal s1 h1 s2 h2 : ℝ)
    (hs1a : 0 ≤ s1) (hs1b : s1 ≤ 1) (hh1a : 0 ≤ h1) (hh1b : h1 ≤ 1)
    (hs2a : 0 ≤ s2) (hs2b : s2 ≤ 1) (hh2a : 0 ≤ h2) (hh2b : h2 ≤ 1) :
    (calculateWeights p nMin nTotal s1 h1).wUndersample
      = (calculateWeights p nMin nTotal s2 h2).wUndersample ∧
    (calculateWeights p nMin nTotal s1 h1).dominantOriginal
      = (calculateWeights p nMin nTotal s2 h2).dominantOriginal := by
  constructor
  · unfold calculateWeights
    dsimp only
    split_ifs <;> rfl
  · unfold calculateWeights
    dsimp only
    split_ifs <;> rfl

/-- Witness for claim C9 at (5, 50, 2000) with sparsity pairs (0, 0) and
(0.9, 1). -/
theorem claim_C9_witness :
    (0 : ℝ) ≤ 0 ∧ (0.9 : ℝ) ≤ 1 ∧
    (calculateWeights 5 50 2000 0 0).wUndersample
      = (calculateWeights 5 50 2000 0.9 1).wUndersample :=
  ⟨by norm_num, by norm_num,
    (claim_C9 5 50 2000 0 0 0.9 1 (by norm_num) (by norm_num) (by norm_num)
      (by norm_num) (by norm_num) (by norm_num) (by norm_num) (by norm_num)).1⟩

lemma isLowDim5_gt : (0.999 : ℝ) < isLowDim 5 := by
  have := sig_5_20_lt
  unfold isLowDim
  linarith

lemma isLowDim5_active : isLowDim 5 > 0.01 := by
  have := isLowDim5_gt
  linarith

/-- Claim C1 is refuted: at (features, minority, total, sparsity,
homogeneity) = (5, 50, 500, 0.8, 0.8) the sum of the four weights returned
by `calculateWeights` differs from the pre-penalty sum — the penalty step
does NOT preserve total weight mass, because the source adds
`penalty * (already reduced oversample)` into baseline. -/
theorem claim_C1_counterexample :
    (calculateWeights 5 50 500 0.8 0.8).wOversample
      + (calculateWeights 5 50 500 0.8 0.8).wUndersample
      + (calculateWeights 5 50 500 0.8 0.8).wHybrid
      + (calculateWeights 5 50 500 0.8 0.8).wBaseline
    ≠ (rawWeights 5 50 500).wOversample
      + (rawWeights 5 50 500).wUndersample
      + (rawWeights 5 50 500).wHybrid
      + (rawWeights 5 50 500).wBaseline := by
  obtain ⟨hst1, hst2⟩ := stab_08_08_bounds
  have hsum := penalty_sum 5 50 500 0.8 0.8 (by linarith)
  have hT := (isTinyMin_mem 5 50).1
  have hO : 0 < (rawWeights 5 50 500).wOversample := by
    rw [rawWeights_wOversample, if_pos isLowDim5_active]
    exact mul_pos (by linarith [isLowDim5_gt]) hT
  have hH := (rawWeights_nonneg 5 50 500).2.2.1
  intro heq
  rw [heq] at hsum
  have hpos : 0 < (1 - getDistanceStability 0.8 0.8) ^ 2
      * ((rawWeights 5 50 500).wOversample + (rawWeights 5 50 500).wHybrid) :=
    mul_pos (pow_pos (by linarith) 2) (by linarith)
  linarith

/-- Claim C1, amended: the penalty step reduces oversample and hybrid by
the factor `penalty = 1 - stability`, but baseline gains only
`penalty * stability * (pre-penalty oversample + hybrid)` — the penalty
times the ALREADY-REDUCED weights — rather than the full removed amount;
consequently the total mass shrinks by `penalty^2 * (pre-penalty
oversample + hybrid)` instead of being preserved. -/
theorem claim_C1 (p nMin nTotal s h : ℝ)
    (hs0 : 0 ≤ s) (hs1 : s ≤ 0.99) (hh0 : 0 ≤ h) (hh1 : h ≤ 1) :
    (calculateWeights p nMin nTotal s h).wOversample
        = (rawWeights p nMin nTotal).wOversample * getDistanceStability s h ∧
    (calculateWeights p nMin nTotal s h).wHybrid
        = (rawWeights p nMin nTotal).wHybrid * getDistanceStability s h ∧
    (calculateWeights p nMin nTotal s h).wBaseline
        = (rawWeights p nMin nTotal).wBaseline
          + (1 - getDistanceStability s h) * getDistanceStability s h
            * ((rawWeights p nMin nTotal).wOversample
               + (rawWeights p nMin nTotal).wHybrid) ∧
    (calculateWeights p nMin nTotal s h).wOversample
      + (calculateWeights p nMin nTotal s h).wUndersample
      + (calculateWeights p nMin nTotal s h).wHybrid
      + (calculateWeights p nMin nTotal s h).wBaseline
    = ((rawWeights p nMin nTotal).wOversample
        + (rawWeights p nMin nTotal).wUndersample
        + (rawWeights p nMin nTotal).wHybrid
        + (rawWeights p nMin nTotal).wBaseline)
      - (1 - getDistanceStability s h) ^ 2
        * ((rawWeights p nMin nTotal).wOversample
           + (rawWeights p nMin nTotal).wHybrid) := by
  have hst := (stability_mem hs0 hs1 hh0 hh1).2
  obtain ⟨e1, e2, e3, e4⟩ := penalty_step p nMin nTotal s h hst
  exact ⟨e1, e3, e4, penalty_sum p nMin nTotal s h hst⟩

/-- Witness for the amended claim C1 at (5, 50, 500, 0.8, 0.8). -/
theorem claim_C1_witness :
    (0 : ℝ) ≤ 0.8 ∧ (0.8 : ℝ) ≤ 0.99 ∧
    (calculateWeights 5 50 500 0.8 0.8).wBaseline
        = (rawWeights 5 50 500).wBaseline
          + (1 - getDistanceStability 0.8 0.8) * getDistanceStability 0.8 0.8
            * ((rawWeights 5 50 500).wOversample
               + (rawWeights 5 50 500).wHybrid) :=
  ⟨by norm_num, by norm_num,
    (claim_C1 5 50 500 0.8 0.8 (by norm_num) (by norm_num) (by norm_num)
      (by norm_num)).2.2.1⟩

lemma mul_lower {a b la lb : ℝ} (ha : la < a) (hb : lb < b)
    (hla : 0 ≤ la) (hlb : 0 ≤ lb) : la * lb < a * b := by
  nlinarith

lemma mul_upper {a b ua ub : ℝ} (ha : a < ua) (hb : b < ub)
    (ha0 : 0 ≤ a) (hb0 : 0 ≤ b) : a * b < ua * ub := by
  nlinarith

/-- A product `a * b * c` with `a, c` in [0, 1] is below any bound
exceeding `b`. -/
lemma mul3_lt {a b c d : ℝ} (ha0 : 0 ≤ a) (ha1 : a ≤ 1) (hb0 : 0 ≤ b)
    (hbd : b < d) (hc0 : 0 ≤ c) (hc1 : c ≤ 1) : a * b * c < d := by
  have h1 : a * b ≤ b := mul_le_of_le_one_left hb0 ha1
  have h2 : a * b * c ≤ a * b :=
    mul_le_of_le_one_right (mul_nonneg ha0 hb0) hc1
  linarith

lemma isMedDim5_small : ¬(isMedDim 5 > 0.01) := by
  unfold isMedDim isLowDim isHighDim
  intro hc
  have h1 := sig_5_20_lt
  have h2 := sigmoid_pos 5 100 12
  linarith

lemma isHighDim5_small : ¬(isHighDim 5 > 0.01) := by
  unfold isHighDim
  intro hc
  linarith [sig_5_100_lt]

lemma isTinyMin5_gt : (0.997 : ℝ) < isTinyMin 5 50 := by
  unfold isTinyMin
  rw [threshold_5]
  linarith [sig_50_200_lt]

lemma oneT5 : 1 - isTinyMin 5 50 < 0.0026 := by
  unfold isTinyMin
  rw [threshold_5]
  linarith [sig_50_200_lt]

/-- At (features, minority) = (5, 50) only the low-dimensional regime is
active, so the pre-penalty weights take the closed forms below, the
dominant strategy is oversample, and this holds for EVERY total. -/
lemma raw5 (total : ℝ) :
    (rawWeights 5 50 total).wOversample = isLowDim 5 * isTinyMin 5 50 ∧
    (rawWeights 5 50 total).wUndersample
      = isLowDim 5 * (1 - isTinyMin 5 50) * efficiencyPressure 50 total ∧
    (rawWeights 5 50 total).wHybrid = 0 ∧
    (rawWeights 5 50 total).wBaseline
      = isLowDim 5 * (1 - isTinyMin 5 50) * (1 - efficiencyPressure 50 total) ∧
    (rawWeights 5 50 total).dominantOriginal = StrategyType.oversample := by
  obtain ⟨hE0, hE1⟩ := efficiencyPressure_mem 50 total
  have hL := isLowDim5_gt
  have hL1 : isLowDim 5 < 1 := (isLowDim_mem 5).2
  have hT := isTinyMin5_gt
  have hT1 : isTinyMin 5 50 < 1 := (isTinyMin_mem 5 50).2
  have h1T0 : (0 : ℝ) < 1 - isTinyMin 5 50 := by linarith
  have h1T := oneT5
  have hO : (rawWeights 5 50 total).wOversample = isLowDim 5 * isTinyMin 5 50 := by
    rw [rawWeights_wOversample, if_pos isLowDim5_active]
  have hU : (rawWeights 5 50 total).wUndersample
      = isLowDim 5 * (1 - isTinyMin 5 50) * efficiencyPressure 50 total := by
    rw [rawWeights_wUndersample, if_pos isLowDim5_active, if_neg isMedDim5_small,
      if_neg isHighDim5_small]
    ring
  have hH : (rawWeights 5 50 total).wHybrid = 0 := by
    rw [rawWeights_wHybrid, if_neg isMedDim5_small, if_neg isHighDim5_small]
    norm_num
  have hOgt : (0.99 : ℝ) < (rawWeights 5 50 total).wOversample := by
    rw [hO]
    nlinarith
  have hUge : 0 ≤ (rawWeights 5 50 total).wUndersample :=
    (rawWeights_nonneg 5 50 total).2.1
  have hfall : ¬((rawWeights 5 50 total).wOversample +
      (rawWeights 5 50 total).wUndersample +
      (rawWeights 5 50 total).wHybrid +
      ((if isLowDim 5 > 0.01 then
        isLowDim 5 * (1 - isTinyMin 5 50) *
          (1 - efficiencyPressure 50 total) else 0) +
       (if isMedDim 5 > 0.01 then
        isMedDim 5 * (1 - isTinyMin 5 50) *
          (1 - efficiencyPressure 50 total) else 0)) < 0.001) := by
    rw [if_pos isLowDim5_active, if_neg isMedDim5_small, hH]
    intro hc
    have hB0 : 0 ≤ isLowDim 5 * (1 - isTinyMin 5 50) *
        (1 - efficiencyPressure 50 total) := by nlinarith
    linarith
  have hB : (rawWeights 5 50 total).wBaseline
      = isLowDim 5 * (1 - isTinyMin 5 50) * (1 - efficiencyPressure 50 total) := by
    rw [rawWeights_wBaseline, if_neg hfall, if_pos isLowDim5_active,
      if_neg isMedDim5_small]
    ring
  have hUlt : (rawWeights 5 50 total).wUndersample < 0.0026 := by
    rw [hU]
    exact mul3_lt (by linarith) hL1.le h1T0.le h1T hE0.le hE1.le
  have hBlt : (rawWeights 5 50 total).wBaseline < 0.0026 := by
    rw [hB]
    exact mul3_lt (by linarith) hL1.le h1T0.le h1T (by linarith) (by linarith)
  have hmax : max (max (rawWeights 5 50 total).wOversample
        (rawWeights 5 50 total).wUndersample)
      (max (rawWeights 5 50 total).wHybrid (rawWeights 5 50 total).wBaseline)
    = (rawWeights 5 50 total).wOversample := by
    rw [max_eq_left (by linarith : (rawWeights 5 50 total).wUndersample
        ≤ (rawWeights 5 50 total).wOversample)]
    exact max_eq_left (max_le (by linarith [hH]) (by linarith))
  have hdom : (rawWeights 5 50 total).dominantOriginal = StrategyType.oversample := by
    rw [rawWeights_dominantOriginal, if_pos hmax]
  exact ⟨hO, hU, hH, hB, hdom⟩

/-- Sequential winner selection resolves to oversample when oversample
strictly beats baseline and neither hybrid nor undersample beats it. -/
lemma pickStrategy_oversample {w : WeightResult}
    (h1 : w.wOversample > w.wBaseline) (h2 : ¬(w.wHybrid > w.wOversample))
    (h3 : ¬(w.wUndersample > w.wOversample)) :
    pickStrategy w = StrategyType.oversample := by
  unfold pickStrategy
  dsimp only
  rw [show (if w.wOversample > w.wBaseline then w.wOversample else w.wBaseline)
      = w.wOversample from if_pos h1,
    show (if w.wOversample > w.wBaseline then StrategyType.oversample
        else StrategyType.baseline) = StrategyType.oversample from if_pos h1,
    show (if w.wHybrid > w.wOversample then w.wHybrid else w.wOversample)
      = w.wOversample from if_neg h2,
    show (if w.wHybrid > w.wOversample then StrategyType.hybrid
        else StrategyType.oversample) = StrategyType.oversample from if_neg h2,
    if_neg h3]

/-- At (5, 50, total, 0.8, 0.8) the post-penalty winner is still
oversample, for every total: the penalty (≈ 0.481) is below 1/2, so
oversample keeps more than baseline can gain. -/
lemma calc5_pick (total : ℝ) :
    pickStrategy (calculateWeights 5 50 total 0.8 0.8) = StrategyType.oversample := by
  obtain ⟨hO, hU, hH, hB, hdom⟩ := raw5 total
  obtain ⟨hst1, hst2⟩ := stab_08_08_bounds
  obtain ⟨e1, e2, e3, e4⟩ := penalty_step 5 50 total 0.8 0.8 (by linarith)
  obtain ⟨hE0, hE1⟩ := efficiencyPressure_mem 50 total
  have hL := isLowDim5_gt
  have hL1 : isLowDim 5 < 1 := (isLowDim_mem 5).2
  have hT := isTinyMin5_gt
  have hT1 : isTinyMin 5 50 < 1 := (isTinyMin_mem 5 50).2
  have h1T0 : (0 : ℝ) < 1 - isTinyMin 5 50 := by linarith
  have h1T := oneT5
  have hwO : (0.51 : ℝ) < (calculateWeights 5 50 total 0.8 0.8).wOversample := by
    rw [e1, hO]
    have p1 : (0.999 : ℝ) * 0.997 < isLowDim 5 * isTinyMin 5 50 :=
      mul_lower hL hT (by norm_num) (by norm_num)
    have p2 : (0.999 : ℝ) * 0.997 * 0.519
        < isLowDim 5 * isTinyMin 5 50 * getDistanceStability 0.8 0.8 :=
      mul_lower p1 hst1 (by norm_num) (by norm_num)
    linarith
  have hwU : (calculateWeights 5 50 total 0.8 0.8).wUndersample < 0.0026 := by
    rw [e2, hU]
    exact mul3_lt (by linarith) hL1.le h1T0.le h1T hE0.le hE1.le
  have hwH : (calculateWeights 5 50 total 0.8 0.8).wHybrid = 0 := by
    rw [e3, hH]
    ring
  have hwB : (calculateWeights 5 50 total 0.8 0.8).wBaseline < 0.26 := by
    rw [e4, hO, hH, hB]
    have hst0 : (0 : ℝ) < getDistanceStability 0.8 0.8 := by linarith
    have hLT1 : isLowDim 5 * isTinyMin 5 50 < 1 := by
      have := mul_upper hL1 hT1 (by linarith) (by linarith)
      linarith
    have hp1 : (1 - getDistanceStability 0.8 0.8) * getDistanceStability 0.8 0.8
        < 0.481 * 0.5192 :=
      mul_upper (by linarith) hst2 (by linarith) hst0.le
    have hp2 : (1 - getDistanceStability 0.8 0.8) * getDistanceStability 0.8 0.8
          * (isLowDim 5 * isTinyMin 5 50 + 0)
        ≤ (1 - getDistanceStability 0.8 0.8) * getDistanceStability 0.8 0.8 := by
      rw [add_zero]
      exact mul_le_of_le_one_right
        (mul_nonneg (by linarith) hst0.le) (by linarith)
    have hBsmall : isLowDim 5 * (1 - isTinyMin 5 50)
        * (1 - efficiencyPressure 50 total) < 0.0026 :=
      mul3_lt (by linarith) hL1.le h1T0.le h1T (by linarith) (by linarith)
    linarith
  exact pickStrategy_oversample (by linarith) (by rw [hwH]; intro hc; linarith)
    (by intro hc; linarith)

lemma composerWarning_not_forced {w : WeightResult} {s hgen : ℝ}
    (h : ¬ wasForcedToBaseline w) (h6 : s > 0.6) (h4 : ¬(hgen < 0.4)) :
    composerWarning w s hgen = some warnCaution := by
  unfold composerWarning
  dsimp only
  rw [if_neg h, if_pos ⟨rfl, h6⟩, if_neg h4]

lemma not_forced_of_pick_oversample {w : WeightResult}
    (h : pickStrategy w = StrategyType.oversample) : ¬ wasForcedToBaseline w := by
  rintro ⟨hb, -⟩
  rw [h] at hb
  simp at hb

/-- Claim C2 is refuted: at features = 5, minority = 50, sparsity = 0.8,
homogeneity = 0.8 there are NO total, folds in the documented ranges for
which the forced-to-baseline path triggers — the final winner is always
oversample, because the penalty (≈ 0.481) is below 1/2. -/
theorem claim_C2_counterexample :
    ¬ ∃ total folds : ℝ, 50 ≤ total ∧ 1 ≤ folds ∧
      (calculateWeights 5 50 total 0.8 0.8).dominantOriginal
        = StrategyType.oversample ∧
      (analyzeDataset ⟨5, 50, total, folds, 0.8, 0.8⟩).strategy
        = StrategyType.baseline ∧
      (analyzeDataset ⟨5, 50, total, folds, 0.8, 0.8⟩).sparsityWarning.isSome
        = true := by
  rintro ⟨total, folds, -, -, -, hbase, -⟩
  have hs : (analyzeDataset ⟨5, 50, total, folds, 0.8, 0.8⟩).strategy
      = pickStrategy (calculateWeights 5 50 total 0.8 0.8) := rfl
  rw [hs, calc5_pick total] at hbase
  simp at hbase

/-- Claim C2, amended: at features = 5, minority = 50, sparsity = 0.8,
homogeneity = 0.8, for EVERY total ≥ minority and folds ≥ 1, the
pre-penalty dominant strategy is Oversample but the post-penalty winner is
ALSO Oversample (the penalty ≈ 0.481 < 1/2 cannot flip the arg-max), so
`wasForcedToBaseline` is false; the returned Recommendation nevertheless
has `sparsityWarning` set — via the independent critical-sparsity branch
(sparsity 0.8 > 0.6, homogeneity 0.8 ≥ 0.4 selects the caution
message). -/
theorem claim_C2 (total folds : ℝ) (htot : 50 ≤ total) (hf : 1 ≤ folds) :
    (calculateWeights 5 50 total 0.8 0.8).dominantOriginal
      = StrategyType.oversample ∧
    (analyzeDataset ⟨5, 50, total, folds, 0.8, 0.8⟩).strategy
      = StrategyType.oversample ∧
    ¬ wasForcedToBaseline (calculateWeights 5 50 total 0.8 0.8) ∧
    (analyzeDataset ⟨5, 50, total, folds, 0.8, 0.8⟩).sparsityWarning
      = some warnCaution := by
  have hpick := calc5_pick total
  have hdom : (calculateWeights 5 50 total 0.8 0.8).dominantOriginal
      = StrategyType.oversample := by
    rw [calculateWeights_dominantOriginal]
    exact (raw5 total).2.2.2.2
  have hnf := not_forced_of_pick_oversample hpick
  refine ⟨hdom, hpick, hnf, ?_⟩
  have hw : (analyzeDataset ⟨5, 50, total, folds, 0.8, 0.8⟩).sparsityWarning
      = composerWarning (calculateWeights 5 50 total 0.8 0.8) 0.8 0.8 := rfl
  rw [hw]
  exact composerWarning_not_forced hnf (by norm_num) (by norm_num)

/-- Witness for the amended claim C2 at total = 500, folds = 5. -/
theorem claim_C2_witness :
    (50 : ℝ) ≤ 500 ∧ (1 : ℝ) ≤ 5 ∧
    ((analyzeDataset ⟨5, 50, 500, 5, 0.8, 0.8⟩).strategy
        = StrategyType.oversample ∧
      (analyzeDataset ⟨5, 50, 500, 5, 0.8, 0.8⟩).sparsityWarning
        = some warnCaution) :=
  ⟨by norm_num, by norm_num,
    (claim_C2 500 5 (by norm_num) (by norm_num)).2.1,
    (claim_C2 500 5 (by norm_num) (by norm_num)).2.2.2⟩

lemma anchor_r_bounds (ty : StrategyType) :
    0 ≤ ((STRATEGY_RGB ty).r : ℝ) ∧ ((STRATEGY_RGB ty).r : ℝ) ≤ 255 := by
  have h : (STRATEGY_RGB ty).r ≤ 255 := by cases ty <;> decide
  exact ⟨Nat.cast_nonneg _, by exact_mod_cast h⟩

lemma anchor_g_bounds (ty : StrategyType) :
    0 ≤ ((STRATEGY_RGB ty).g : ℝ) ∧ ((STRATEGY_RGB ty).g : ℝ) ≤ 255 := by
  have h : (STRATEGY_RGB ty).g ≤ 255 := by cases ty <;> decide
  exact ⟨Nat.cast_nonneg _, by exact_mod_cast h⟩

lemma anchor_b_bounds (ty : StrategyType) :
    0 ≤ ((STRATEGY_RGB ty).b : ℝ) ∧ ((STRATEGY_RGB ty).b : ℝ) ≤ 255 := by
  have h : (STRATEGY_RGB ty).b ≤ 255 := by cases ty <;> decide
  exact ⟨Nat.cast_nonneg _, by exact_mod_cast h⟩

/-- One accumulated channel of the blender stays within [0, 255] whenever
the four weights are non-negative and the four anchor components lie in
[0, 255]. -/
lemma blend_component_mem {w1 w2 w3 w4 c1 c2 c3 c4 : ℝ}
    (h1 : 0 ≤ w1) (h2 : 0 ≤ w2) (h3 : 0 ≤ w3) (h4 : 0 ≤ w4)
    (hc1 : 0 ≤ c1) (hc1' : c1 ≤ 255) (hc2 : 0 ≤ c2) (hc2' : c2 ≤ 255)
    (hc3 : 0 ≤ c3) (hc3' : c3 ≤ 255) (hc4 : 0 ≤ c4) (hc4' : c4 ≤ 255) :
    0 ≤ (if w1 > 0 then
          c1 * (w1 / (if w1 + w2 + w3 + w4 = 0 then 1 else w1 + w2 + w3 + w4)) else 0)
      + (if w2 > 0 then
          c2 * (w2 / (if w1 + w2 + w3 + w4 = 0 then 1 else w1 + w2 + w3 + w4)) else 0)
      + (if w3 > 0 then
          c3 * (w3 / (if w1 + w2 + w3 + w4 = 0 then 1 else w1 + w2 + w3 + w4)) else 0)
      + (if w4 > 0 then
          c4 * (w4 / (if w1 + w2 + w3 + w4 = 0 then 1 else w1 + w2 + w3 + w4)) else 0) ∧
    (if w1 > 0 then
          c1 * (w1 / (if w1 + w2 + w3 + w4 = 0 then 1 else w1 + w2 + w3 + w4)) else 0)
      + (if w2 > 0 then
          c2 * (w2 / (if w1 + w2 + w3 + w4 = 0 then 1 else w1 + w2 + w3 + w4)) else 0)
      + (if w3 > 0 then
          c3 * (w3 / (if w1 + w2 + w3 + w4 = 0 then 1 else w1 + w2 + w3 + w4)) else 0)
      + (if w4 > 0 then
          c4 * (w4 / (if w1 + w2 + w3 + w4 = 0 then 1 else w1 + w2 + w3 + w4)) else 0)
      ≤ 255 := by
  by_cases h0 : w1 + w2 + w3 + w4 = 0
  · have hw1 : ¬(w1 > 0) := by intro hg; linarith
    have hw2 : ¬(w2 > 0) := by intro hg; linarith
    have hw3 : ¬(w3 > 0) := by intro hg; linarith
    have hw4 : ¬(w4 > 0) := by intro hg; linarith
    rw [if_neg hw1, if_neg hw2, if_neg hw3, if_neg hw4]
    norm_num
  · rw [if_neg h0]
    have hSpos : 0 < w1 + w2 + w3 + w4 :=
      lt_of_le_of_ne (by linarith) (Ne.symm h0)
    have d1 : 0 ≤ w1 / (w1 + w2 + w3 + w4) := div_nonneg h1 hSpos.le
    have d2 : 0 ≤ w2 / (w1 + w2 + w3 + w4) := div_nonneg h2 hSpos.le
    have d3 : 0 ≤ w3 / (w1 + w2 + w3 + w4) := div_nonneg h3 hSpos.le
    have d4 : 0 ≤ w4 / (w1 + w2 + w3 + w4) := div_nonneg h4 hSpos.le
    have t1a : 0 ≤ if w1 > 0 then c1 * (w1 / (w1 + w2 + w3 + w4)) else 0 :=
      ite_term_nonneg fun _ => mul_nonneg hc1 d1
    have t2a : 0 ≤ if w2 > 0 then c2 * (w2 / (w1 + w2 + w3 + w4)) else 0 :=
      ite_term_nonneg fun _ => mul_nonneg hc2 d2
    have t3a : 0 ≤ if w3 > 0 then c3 * (w3 / (w1 + w2 + w3 + w4)) else 0 :=
      ite_term_nonneg fun _ => mul_nonneg hc3 d3
    have t4a : 0 ≤ if w4 > 0 then c4 * (w4 / (w1 + w2 + w3 + w4)) else 0 :=
      ite_term_nonneg fun _ => mul_nonneg hc4 d4
    have t1b : (if w1 > 0 then c1 * (w1 / (w1 + w2 + w3 + w4)) else 0)
        ≤ 255 * (w1 / (w1 + w2 + w3 + w4)) := by
      split_ifs
      · exact mul_le_mul_of_nonneg_right hc1' d1
      · exact mul_nonneg (by norm_num) d1
    have t2b : (if w2 > 0 then c2 * (w2 / (w1 + w2 + w3 + w4)) else 0)
        ≤ 255 * (w2 / (w1 + w2 + w3 + w4)) := by
      split_ifs
      · exact mul_le_mul_of_nonneg_right hc2' d2
      · exact mul_nonneg (by norm_num) d2
    have t3b : (if w3 > 0 then c3 * (w3 / (w1 + w2 + w3 + w4)) else 0)
        ≤ 255 * (w3 / (w1 + w2 + w3 + w4)) := by
      split_ifs
      · exact mul_le_mul_of_nonneg_right hc3' d3
      · exact mul_nonneg (by norm_num) d3
    have t4b : (if w4 > 0 then c4 * (w4 / (w1 + w2 + w3 + w4)) else 0)
        ≤ 255 * (w4 / (w1 + w2 + w3 + w4)) := by
      split_ifs
      · exact mul_le_mul_of_nonneg_right hc4' d4
      · exact mul_nonneg (by norm_num) d4
    have hsum : w1 / (w1 + w2 + w3 + w4) + w2 / (w1 + w2 + w3 + w4)
        + w3 / (w1 + w2 + w3 + w4) + w4 / (w1 + w2 + w3 + w4) = 1 := by
      field_simp
    constructor
    · linarith
    · nlinarith [t1b, t2b, t3b, t4b, hsum]

/-- Claim C3, amended: each component returned by `getSmoothStrategyRGB`
(the spec's `blendColor`) is a REAL value in [0, 255] — a convex
combination of the four anchor channels — but it is not in general an
integer (see the counterexample). -/
theorem claim_C3 (p nMin nTotal s h : ℝ) (hp : 0 < p) (hn : 0 < nMin)
    (htot : nMin ≤ nTotal) (hs0 : 0 ≤ s) (hs1 : s ≤ 0.99)
    (hh0 : 0 ≤ h) (hh1 : h ≤ 1) :
    (0 ≤ (getSmoothStrategyRGB p nMin nTotal s h).r ∧
      (getSmoothStrategyRGB p nMin nTotal s h).r ≤ 255) ∧
    (0 ≤ (getSmoothStrategyRGB p nMin nTotal s h).g ∧
      (getSmoothStrategyRGB p nMin nTotal s h).g ≤ 255) ∧
    (0 ≤ (getSmoothStrategyRGB p nMin nTotal s h).b ∧
      (getSmoothStrategyRGB p nMin nTotal s h).b ≤ 255) := by
  obtain ⟨w1, w2, w3, w4, -⟩ :=
    calculateWeights_nonneg_sum_pos p nMin nTotal s h hs0 hs1 hh0 hh1
  refine ⟨?_, ?_, ?_⟩
  · exact blend_component_mem w1 w2 w3 w4
      (anchor_r_bounds .oversample).1 (anchor_r_bounds .oversample).2
      (anchor_r_bounds .undersample).1 (anchor_r_bounds .undersample).2
      (anchor_r_bounds .hybrid).1 (anchor_r_bounds .hybrid).2
      (anchor_r_bounds .baseline).1 (anchor_r_bounds .baseline).2
  · exact blend_component_mem w1 w2 w3 w4
      (anchor_g_bounds .oversample).1 (anchor_g_bounds .oversample).2
      (anchor_g_bounds .undersample).1 (anchor_g_bounds .undersample).2
      (anchor_g_bounds .hybrid).1 (anchor_g_bounds .hybrid).2
      (anchor_g_bounds .baseline).1 (anchor_g_bounds .baseline).2
  · exact blend_component_mem w1 w2 w3 w4
      (anchor_b_bounds .oversample).1 (anchor_b_bounds .oversample).2
      (anchor_b_bounds .undersample).1 (anchor_b_bounds .undersample).2
      (anchor_b_bounds .hybrid).1 (anchor_b_bounds .hybrid).2
      (anchor_b_bounds .baseline).1 (anchor_b_bounds .baseline).2

/-- Witness for the amended claim C3 at (5, 50, 2000, 0, 0.5). -/
theorem claim_C3_witness :
    (0 : ℝ) < 5 ∧ (50 : ℝ) ≤ 2000 ∧
    (0 ≤ (getSmoothStrategyRGB 5 50 2000 0 0.5).r ∧
      (getSmoothStrategyRGB 5 50 2000 0 0.5).r ≤ 255) :=
  ⟨by norm_num, by norm_num,
    (claim_C3 5 50 2000 0 0.5 (by norm_num) (by norm_num) (by norm_num)
      (by norm_num) (by norm_num) (by norm_num) (by norm_num)).1⟩

lemma isLowDim2_gt : (0.99 : ℝ) < isLowDim 2 := by
  unfold isLowDim
  linarith [sig_2_20_lt]

lemma isLowDim2_active : isLowDim 2 > 0.01 := by
  linarith [isLowDim2_gt]

lemma isMedDim2_small : ¬(isMedDim 2 > 0.01) := by
  unfold isMedDim isLowDim isHighDim
  intro hc
  have h1 := sig_2_20_lt
  have h2 := sigmoid_pos 2 100 12
  linarith

lemma isHighDim2_small : ¬(isHighDim 2 > 0.01) := by
  unfold isHighDim
  intro hc
  linarith [sig_2_100_lt]

lemma oneT2 : 1 - isTinyMin 2 1 < 1 / 223 := by
  unfold isTinyMin
  rw [threshold_2]
  linarith [sig_1_200_lt]

lemma isTinyMin2_gt : (0.995 : ℝ) < isTinyMin 2 1 := by
  have := oneT2
  norm_num at this ⊢
  linarith

/-- At (features, minority) = (2, 1) only the low-dimensional regime is
active and the pre-penalty weights take the closed forms below, for every
total. -/
lemma raw2 (total : ℝ) :
    (rawWeights 2 1 total).wOversample = isLowDim 2 * isTinyMin 2 1 ∧
    (rawWeights 2 1 total).wUndersample
      = isLowDim 2 * (1 - isTinyMin 2 1) * efficiencyPressure 1 total ∧
    (rawWeights 2 1 total).wHybrid = 0 ∧
    (rawWeights 2 1 total).wBaseline
      = isLowDim 2 * (1 - isTinyMin 2 1) * (1 - efficiencyPressure 1 total) := by
  obtain ⟨hE0, hE1⟩ := efficiencyPressure_mem 1 total
  have hL := isLowDim2_gt
  have hL1 : isLowDim 2 < 1 := (isLowDim_mem 2).2
  have hT := isTinyMin2_gt
  have hT1 : isTinyMin 2 1 < 1 := (isTinyMin_mem 2 1).2
  have h1T0 : (0 : ℝ) < 1 - isTinyMin 2 1 := by linarith
  have hO : (rawWeights 2 1 total).wOversample = isLowDim 2 * isTinyMin 2 1 := by
    rw [rawWeights_wOversample, if_pos isLowDim2_active]
  have hU : (rawWeights 2 1 total).wUndersample
      = isLowDim 2 * (1 - isTinyMin 2 1) * efficiencyPressure 1 total := by
    rw [rawWeights_wUndersample, if_pos isLowDim2_active, if_neg isMedDim2_small,
      if_neg isHighDim2_small]
    ring
  have hH : (rawWeights 2 1 total).wHybrid = 0 := by
    rw [rawWeights_wHybrid, if_neg isMedDim2_small, if_neg isHighDim2_small]
    norm_num
  have hOgt : (0.98 : ℝ) < (rawWeights 2 1 total).wOversample := by
    rw [hO]
    have := mul_lower hL hT (by norm_num) (by norm_num)
    linarith
  have hUge : 0 ≤ (rawWeights 2 1 total).wUndersample :=
    (rawWeights_nonneg 2 1 total).2.1
  have hfall : ¬((rawWeights 2 1 total).wOversample +
      (rawWeights 2 1 total).wUndersample +
      (rawWeights 2 1 total).wHybrid +
      ((if isLowDim 2 > 0.01 then
        isLowDim 2 * (1 - isTinyMin 2 1) *
          (1 - efficiencyPressure 1 total) else 0) +
       (if isMedDim 2 > 0.01 then
        isMedDim 2 * (1 - isTinyMin 2 1) *
          (1 - efficiencyPressure 1 total) else 0)) < 0.001) := by
    rw [if_pos isLowDim2_active, if_neg isMedDim2_small, hH]
    intro hc
    have hB0 : 0 ≤ isLowDim 2 * (1 - isTinyMin 2 1) *
        (1 - efficiencyPressure 1 total) := by nlinarith
    linarith
  have hB : (rawWeights 2 1 total).wBaseline
      = isLowDim 2 * (1 - isTinyMin 2 1) * (1 - efficiencyPressure 1 total) := by
    rw [rawWeights_wBaseline, if_neg hfall, if_pos isLowDim2_active,
      if_neg isMedDim2_small]
    ring
  exact ⟨hO, hU, hH, hB⟩

lemma stab_01_05 : getDistanceStability 0.1 0.5 = 1 := by
  unfold getDistanceStability
  rw [if_pos (by norm_num : (0.1 : ℝ) < 0.3)]

lemma anchor_oversample_r : ((STRATEGY_RGB StrategyType.oversample).r : ℝ) = 239 := by
  have h : (STRATEGY_RGB StrategyType.oversample).r = 239 := by decide
  rw [h]
  norm_num

lemma anchor_undersample_r : ((STRATEGY_RGB StrategyType.undersample).r : ℝ) = 59 := by
  have h : (STRATEGY_RGB StrategyType.undersample).r = 59 := by decide
  rw [h]
  norm_num

lemma anchor_baseline_r : ((STRATEGY_RGB StrategyType.baseline).r : ℝ) = 16 := by
  have h : (STRATEGY_RGB StrategyType.baseline).r = 16 := by decide
  rw [h]
  norm_num

/-- Evaluation of the blended red channel when the hybrid weight is zero
and the other three weights are strictly positive. -/
lemma blendWeights_r_eval {w : WeightResult} (hO : 0 < w.wOversample)
    (hU : 0 < w.wUndersample) (hH : w.wHybrid = 0) (hB : 0 < w.wBaseline) :
    (blendWeights w).r =
      (239 * w.wOversample + 59 * w.wUndersample + 16 * w.wBaseline)
        / (w.wOversample + w.wUndersample + w.wHybrid + w.wBaseline) := by
  have hS : 0 < w.wOversample + w.wUndersample + w.wHybrid + w.wBaseline := by
    rw [hH]
    linarith
  have hr : (blendWeights w).r =
      (if w.wOversample > 0 then
        ((STRATEGY_RGB StrategyType.oversample).r : ℝ) * (w.wOversample /
          (if w.wOversample + w.wUndersample + w.wHybrid + w.wBaseline = 0 then 1
           else w.wOversample + w.wUndersample + w.wHybrid + w.wBaseline)) else 0) +
      (if w.wUndersample > 0 then
        ((STRATEGY_RGB StrategyType.undersample).r : ℝ) * (w.wUndersample /
          (if w.wOversample + w.wUndersample + w.wHybrid + w.wBaseline = 0 then 1
           else w.wOversample + w.wUndersample + w.wHybrid + w.wBaseline)) else 0) +
      (if w.wHybrid > 0 then
        ((STRATEGY_RGB StrategyType.hybrid).r : ℝ) * (w.wHybrid /
          (if w.wOversample + w.wUndersample + w.wHybrid + w.wBaseline = 0 then 1
           else w.wOversample + w.wUndersample + w.wHybrid + w.wBaseline)) else 0) +
      (if w.wBaseline > 0 then
        ((STRATEGY_RGB StrategyType.baseline).r : ℝ) * (w.wBaseline /
          (if w.wOversample + w.wUndersample + w.wHybrid + w.wBaseline = 0 then 1
           else w.wOversample + w.wUndersample + w.wHybrid + w.wBaseline)) else 0) :=
    rfl
  rw [hr, if_neg (ne_of_gt hS), if_pos hO, if_pos hU, if_pos hB]
  rw [hH, if_neg (lt_irrefl (0 : ℝ)), anchor_oversample_r, anchor_undersample_r,
    anchor_baseline_r]
  rw [hH] at hS
  field_simp

/-- Claim C3 is refuted: at (features, minority, total, sparsity,
homogeneity) = (2, 1, 1000, 0.1, 0.5) the red component of the blended
color lies strictly between 238 and 239, hence is not an integer — the
blender never rounds. -/
theorem claim_C3_counterexample :
    ¬ ∃ n : ℤ, (getSmoothStrategyRGB 2 1 1000 0.1 0.5).r = (n : ℝ) := by
  obtain ⟨e1, e2, e3, e4⟩ := penalty_step 2 1 1000 0.1 0.5 (le_of_eq stab_01_05)
  rw [stab_01_05, mul_one] at e1 e3
  rw [stab_01_05] at e4
  simp only [sub_self, zero_mul, add_zero] at e4
  obtain ⟨hO, hU, hH, hB⟩ := raw2 1000
  obtain ⟨hE0, hE1⟩ := efficiencyPressure_mem 1 1000
  have hL := isLowDim2_gt
  have hL1 : isLowDim 2 < 1 := (isLowDim_mem 2).2
  have hT := isTinyMin2_gt
  have hT1 : isTinyMin 2 1 < 1 := (isTinyMin_mem 2 1).2
  have h1T0 : (0 : ℝ) < 1 - isTinyMin 2 1 := by linarith
  have h1T : 1 - isTinyMin 2 1 < 1 / 223 := oneT2
  have hwO : (calculateWeights 2 1 1000 0.1 0.5).wOversample
      = isLowDim 2 * isTinyMin 2 1 := by rw [e1, hO]
  have hwU : (calculateWeights 2 1 1000 0.1 0.5).wUndersample
      = isLowDim 2 * (1 - isTinyMin 2 1) * efficiencyPressure 1 1000 := by
    rw [e2, hU]
  have hwH : (calculateWeights 2 1 1000 0.1 0.5).wHybrid = 0 := by rw [e3, hH]
  have hwB : (calculateWeights 2 1 1000 0.1 0.5).wBaseline
      = isLowDim 2 * (1 - isTinyMin 2 1) * (1 - efficiencyPressure 1 1000) := by
    rw [e4, hB]
  have hwOpos : 0 < (calculateWeights 2 1 1000 0.1 0.5).wOversample := by
    rw [hwO]
    exact mul_pos (by linarith) (by linarith)
  have hwUpos : 0 < (calculateWeights 2 1 1000 0.1 0.5).wUndersample := by
    rw [hwU]
    exact mul_pos (mul_pos (by linarith) h1T0) hE0
  have hwBpos : 0 < (calculateWeights 2 1 1000 0.1 0.5).wBaseline := by
    rw [hwB]
    exact mul_pos (mul_pos (by linarith) h1T0) (by linarith)
  have hlow : 238 < (getSmoothStrategyRGB 2 1 1000 0.1 0.5).r ∧
      (getSmoothStrategyRGB 2 1 1000 0.1 0.5).r < 239 := by
    have heval := blendWeights_r_eval hwOpos hwUpos hwH hwBpos
    have hS : 0 < (calculateWeights 2 1 1000 0.1 0.5).wOversample
        + (calculateWeights 2 1 1000 0.1 0.5).wUndersample
        + (calculateWeights 2 1 1000 0.1 0.5).wHybrid
        + (calculateWeights 2 1 1000 0.1 0.5).wBaseline := by
      rw [hwH]
      linarith
    have hshow : (getSmoothStrategyRGB 2 1 1000 0.1 0.5).r
        = (blendWeights (calculateWeights 2 1 1000 0.1 0.5)).r := rfl
    rw [hshow, heval]
    constructor
    · rw [lt_div_iff hS, hwO, hwU, hwH, hwB]
      nlinarith [mul_pos (show (0 : ℝ) < isLowDim 2 by linarith)
          (show (0 : ℝ) < 223 * isTinyMin 2 1 - 222 by linarith),
        mul_nonneg (mul_nonneg (show (0 : ℝ) ≤ isLowDim 2 by linarith) h1T0.le)
          hE0.le]
    · rw [div_lt_iff hS, hwO, hwU, hwH, hwB]
      nlinarith [mul_pos (mul_pos (show (0 : ℝ) < isLowDim 2 by linarith) h1T0)
          hE0,
        mul_nonneg (mul_nonneg (show (0 : ℝ) ≤ isLowDim 2 by linarith) h1T0.le)
          (show (0 : ℝ) ≤ 1 - efficiencyPressure 1 1000 by linarith)]
  rintro ⟨n, hn⟩
  rw [hn] at hlow
  have h1 : (238 : ℤ) < n := by exact_mod_cast hlow.1
  have h2 : n < (239 : ℤ) := by exact_mod_cast hlow.2
  omega

end ResampleLab
